import Mathlib

/-
Shallow embedding of the node package of Crytochain/Node: the lifecycle
orchestrator (`Node.Start` / `Node.Stop` in src/node.go), the service
registry, the RPC endpoint managers (in-process, IPC, HTTP, WebSocket),
the HTTP middleware stack (src/unnamed/part_001) and the administrative
per-transport operations (src/api.go).

Modelling conventions:
 - `reflect.Type` service kinds are modelled as strings.
 - The Go map `map[reflect.Type]Service` is modelled as an association
   list in insertion (construction) order; every `range` over that map in
   the source iterates in an unspecified order, which is modelled by an
   explicit iteration-order parameter `iter` applied to the list.
 - External effects (directory creation, file lock, peer-transport start,
   listener binding, lock release, keystore removal) are modelled by a
   `World` record giving each effect's outcome for the call.
 - A service's `Start`/`Stop` results are carried in the `Service` record.
 - The rpc dispatcher's `RegisterName` is an external collaborator that
   only fails on malformed receivers, which the node never supplies; it is
   modelled as total.
 - Observable actions are recorded in an event trace (`Ev`).
-/

namespace NodeSpec

/-- Model of `rpc.API` (namespace, public flag); the service payload is
irrelevant to registration decisions. -/
structure API where
  ns : String
  public : Bool
deriving DecidableEq, Repr

/-- Model of a constructed service: its concrete kind (`reflect.TypeOf`),
its protocol descriptors, its API descriptors, and the outcomes of its
`Start(server)` and `Stop()` calls (`none` = success). -/
structure Service where
  kind : String
  protocols : List String
  apis : List API
  startErr : Option String
  stopErr : Option String
deriving DecidableEq, Repr

/-- Model of `ServiceConstructor`: takes the services constructed earlier
in the same Start pass (the `ServiceContext` lookup map) and yields a
service or a construction error. -/
def ServiceConstructor := List (String × Service) → Except String Service

/-- The error taxonomy of the node package (src/node.go, src/api.go):
`ErrNodeRunning`, `ErrNodeStopped`, `DuplicateServiceError`,
`ErrServiceUnknown`, `StopError`, the admin endpoint-state errors, and
opaque wrapped errors from collaborators. -/
inductive GoError where
  | nodeRunning
  | nodeStopped
  | duplicateService (kind : String)
  | serviceUnknown
  | custom (msg : String)
  | stopFailure (svcs : List (String × String))
  | httpAlreadyRunning
  | httpNotRunning
  | wsAlreadyRunning
  | wsNotRunning
deriving DecidableEq, Repr

/-- The four endpoint transports. -/
inductive Transport where
  | inproc
  | ipc
  | http
  | ws
deriving DecidableEq, Repr

/-- Observable events of one lifecycle operation, in call order. -/
inductive Ev where
  | lockAcquired
  | lockReleased
  | svcStart (kind : String)
  | svcStop (kind : String)
  | p2pStart
  | p2pStop
  | epStart (t : Transport)
  | epStop (t : Transport)
  | stopBroadcast
  | keystoreRemove
deriving DecidableEq, Repr

/-- The fields of `Config` (src/unnamed/part_000) that the modelled
operations consult. -/
structure Config where
  dataDir : String
  ipcPath : String
  httpHost : String
  httpPort : Nat
  httpCors : List String
  httpVirtualHosts : List String
  httpModules : List String
  wsHost : String
  wsPort : Nat
  wsOrigins : List String
  wsModules : List String
  wsExposeAll : Bool
deriving Repr

/-- `Config.HTTPEndpoint`: empty unless a HTTP host is configured. -/
def Config.httpEndpointStr (c : Config) : String :=
  if c.httpHost = "" then "" else c.httpHost ++ ":" ++ toString c.httpPort

/-- `Config.WSEndpoint`: empty unless a WS host is configured. -/
def Config.wsEndpointStr (c : Config) : String :=
  if c.wsHost = "" then "" else c.wsHost ++ ":" ++ toString c.wsPort

/-- `Config.IPCEndpoint`: the platform path resolution is external; the
model keeps the configured path (empty = no local socket). -/
def Config.ipcEndpointStr (c : Config) : String := c.ipcPath

/-- Configuration of a bound HTTP endpoint: the installed handler stack's
parameters (`Node.startHTTP`). `shared` records whether the websocket
upgrade wrapper was installed (`n.httpEndpoint == n.wsEndpoint`). -/
structure HTTPConf where
  endpoint : String
  corsAllowed : List String
  vhosts : List String
  registered : List API
  shared : Bool
  wsOrigins : List String
deriving DecidableEq, Repr

/-- Configuration of a bound WebSocket endpoint (`Node.startWS`). -/
structure WSConf where
  endpoint : String
  origins : List String
  registered : List API
deriving DecidableEq, Repr

/-- The mutable state of a `Node` (src/node.go lines 23-50). The paired
listener/handler fields of one transport are modelled as one option
field holding that endpoint's configuration; `server` holds the peer
transport's aggregated protocol list while running. -/
structure NodeState where
  cfg : Config
  serviceFuncs : List ServiceConstructor
  services : Option (List (String × Service))
  server : Option (List String)
  instanceDirLock : Bool
  rpcAPIs : Option (List API)
  inproc : Option (List API)
  ipc : Option (List API)
  http : Option HTTPConf
  ws : Option WSConf
  ipcEndpoint : String
  httpEndpoint : String
  wsEndpoint : String
  httpWhitelist : List String
  ephemeralKeystore : String
  stopCh : Bool

/-- Outcomes of the external effects of one lifecycle call. -/
structure World where
  mkdirErr : Option String
  flockErr : Option String
  p2pStartErr : Option String
  ipcBindErr : Option String
  httpBindErr : Option String
  wsBindErr : Option String
  lockReleaseErr : Option String
  keystoreRemoveErr : Option String
deriving Repr

/-- `New` (src/node.go lines 51-88): the initial node state. Name
validation and account-manager construction precede this state and are
external to the lifecycle claims. -/
def Node.new (cfg : Config) (funcs : List ServiceConstructor) (ephemeral : String) :
    NodeState :=
  { cfg := cfg, serviceFuncs := funcs, services := none, server := none,
    instanceDirLock := false, rpcAPIs := none, inproc := none, ipc := none,
    http := none, ws := none,
    ipcEndpoint := cfg.ipcEndpointStr, httpEndpoint := cfg.httpEndpointStr,
    wsEndpoint := cfg.wsEndpointStr, httpWhitelist := [],
    ephemeralKeystore := ephemeral, stopCh := false }

/-- `convertFileLockError`: wraps a lock-related failure; the wrapping
itself does not affect any claim, so the message is kept opaque. -/
def convertFileLockError (e : String) : GoError := GoError.custom e

/-- `Node.openDataDir` (src/node.go lines 192-206): no datadir means no
lock; otherwise create the instance directory and take the file lock,
recording the release handle in the node state. -/
def openDataDirM (s : NodeState) (w : World) : NodeState × List Ev × Option GoError :=
  if s.cfg.dataDir = "" then (s, [], none)
  else
    match w.mkdirErr with
    | some e => (s, [], some (GoError.custom e))
    | none =>
      match w.flockErr with
      | some e => (s, [], some (convertFileLockError e))
      | none => ({ s with instanceDirLock := true }, [Ev.lockAcquired], none)

/-- The service-construction loop of `Node.Start` (src/node.go lines
140-159): each constructor sees the services constructed before it; a
constructor error aborts as-is; a kind collision aborts with
`DuplicateServiceError`. -/
def constructServices : List ServiceConstructor → List (String × Service) →
    Except GoError (List (String × Service))
  | [], acc => Except.ok acc
  | c :: rest, acc =>
    match c acc with
    | Except.error e => Except.error (GoError.custom e)
    | Except.ok sv =>
      if acc.any (fun p => p.1 == sv.kind) then
        Except.error (GoError.duplicateService sv.kind)
      else
        constructServices rest (acc ++ [(sv.kind, sv)])

/-- The service-start loop of `Node.Start` (src/node.go lines 166-176),
over the map-iteration order: on the first `Start` failure, `Stop` every
already-started service in start order, then stop the peer transport,
and return the error. -/
def startLoop : List (String × Service) → List String → List Ev × Option String
  | [], _ => ([], none)
  | (k, sv) :: rest, started =>
    match sv.startErr with
    | some e => (Ev.svcStart k :: (started.map Ev.svcStop ++ [Ev.p2pStop]), some e)
    | none =>
      let r := startLoop rest (started ++ [k])
      (Ev.svcStart k :: r.1, r.2)

/-- `RegisterApisFromWhitelist` (src/node.go lines 515-531): the
availability check only logs (`checkModuleAvailability` feeds a log call
and nothing else), and `RegisterName` is modelled as total, so the
function's observable result is the registered API list. The whitelist
map is non-empty exactly when the module list is. -/
def RegisterApisFromWhitelist (apis : List API) (modules : List String)
    (exposeAll : Bool) : List API :=
  apis.filter (fun api =>
    exposeAll || modules.contains api.ns || (modules.isEmpty && api.public))

/-- `Node.startIPC` (src/node.go lines 252-264). -/
def startIPCm (s : NodeState) (w : World) (apis : List API) :
    NodeState × List Ev × Option GoError :=
  if s.ipcEndpoint = "" then (s, [], none)
  else
    match w.ipcBindErr with
    | some e => (s, [], some (GoError.custom e))
    | none => ({ s with ipc := some apis }, [Ev.epStart Transport.ipc], none)

/-- `Node.startHTTP` (src/node.go lines 276-304): register the
whitelisted APIs, install the websocket upgrade wrapper when the node's
HTTP and WS endpoint strings coincide, bind, and record the endpoint. -/
def startHTTPm (s : NodeState) (w : World) (endpoint : String) (apis : List API)
    (modules cors vhosts wsOrigins : List String) :
    NodeState × List Ev × Option GoError :=
  if endpoint = "" then (s, [], none)
  else
    let registered := RegisterApisFromWhitelist apis modules false
    let shared := s.httpEndpoint == s.wsEndpoint
    match w.httpBindErr with
    | some e => (s, [], some (GoError.custom e))
    | none =>
      ({ s with httpEndpoint := endpoint,
                http := some { endpoint := endpoint, corsAllowed := cors,
                               vhosts := vhosts, registered := registered,
                               shared := shared, wsOrigins := wsOrigins } },
       [Ev.epStart Transport.http], none)

/-- `Node.startWS` (src/node.go lines 315-335). -/
def startWSm (s : NodeState) (w : World) (endpoint : String) (apis : List API)
    (modules origins : List String) (exposeAll : Bool) :
    NodeState × List Ev × Option GoError :=
  if endpoint = "" then (s, [], none)
  else
    let registered := RegisterApisFromWhitelist apis modules exposeAll
    match w.wsBindErr with
    | some e => (s, [], some (GoError.custom e))
    | none =>
      ({ s with wsEndpoint := endpoint,
                ws := some { endpoint := endpoint, origins := origins,
                             registered := registered } },
       [Ev.epStart Transport.ws], none)

/-- `Node.stopInProc` (src/node.go lines 246-251). -/
def stopInProcM (s : NodeState) : NodeState × List Ev :=
  if s.inproc.isSome then ({ s with inproc := none }, [Ev.epStop Transport.inproc])
  else (s, [])

/-- `Node.stopIPC` (src/node.go lines 265-275). -/
def stopIPCm (s : NodeState) : NodeState × List Ev :=
  if s.ipc.isSome then ({ s with ipc := none }, [Ev.epStop Transport.ipc])
  else (s, [])

/-- `Node.stopHTTP` (src/node.go lines 305-314). -/
def stopHTTPm (s : NodeState) : NodeState × List Ev :=
  if s.http.isSome then ({ s with http := none }, [Ev.epStop Transport.http])
  else (s, [])

/-- `Node.stopWS` (src/node.go lines 336-345). -/
def stopWSm (s : NodeState) : NodeState × List Ev :=
  if s.ws.isSome then ({ s with ws := none }, [Ev.epStop Transport.ws])
  else (s, [])

/-- `Node.apis` (src/node.go lines 492-514): the built-in administrative
API descriptors. -/
def builtinAPIs : List API :=
  [{ ns := "admin", public := false }, { ns := "admin", public := true },
   { ns := "debug", public := false }, { ns := "web3", public := true }]

/-- The WS step of `Node.startRPC` (src/node.go lines 224-231): skipped
when the WS endpoint coincides with the HTTP endpoint; on failure, undo
HTTP, IPC and in-process in that order. On overall success, cache the
aggregated API list (line 232). -/
def rpcWSStage (s3 : NodeState) (w : World) (apis : List API) :
    NodeState × List Ev × Option GoError :=
  match (if s3.httpEndpoint = s3.wsEndpoint
         then (s3, ([] : List Ev), (none : Option GoError))
         else startWSm s3 w s3.wsEndpoint apis s3.cfg.wsModules s3.cfg.wsOrigins
           s3.cfg.wsExposeAll) with
  | (s4, ev4, some e) =>
    let r5 := stopHTTPm s4
    let r6 := stopIPCm r5.1
    let r7 := stopInProcM r6.1
    (r7.1, ev4 ++ r5.2 ++ r6.2 ++ r7.2, some e)
  | (s4, ev4, none) =>
    ({ s4 with rpcAPIs := some apis }, ev4, none)

/-- The HTTP step of `Node.startRPC` (src/node.go lines 219-223): on
failure, undo IPC and in-process. -/
def rpcHTTPStage (s2 : NodeState) (w : World) (apis : List API) :
    NodeState × List Ev × Option GoError :=
  match startHTTPm s2 w s2.httpEndpoint apis s2.cfg.httpModules s2.cfg.httpCors
      s2.cfg.httpVirtualHosts s2.cfg.wsOrigins with
  | (s3, ev3, some e) =>
    let r4 := stopIPCm s3
    let r5 := stopInProcM r4.1
    (r5.1, ev3 ++ r4.2 ++ r5.2, some e)
  | (s3, ev3, none) =>
    let r := rpcWSStage s3 w apis
    (r.1, ev3 ++ r.2.1, r.2.2)

/-- The IPC step of `Node.startRPC` (src/node.go lines 215-218): on
failure, undo in-process. -/
def rpcIPCStage (s1 : NodeState) (w : World) (apis : List API) :
    NodeState × List Ev × Option GoError :=
  match startIPCm s1 w apis with
  | (s2, ev2, some e) =>
    let r3 := stopInProcM s2
    (r3.1, ev2 ++ r3.2, some e)
  | (s2, ev2, none) =>
    let r := rpcHTTPStage s2 w apis
    (r.1, ev2 ++ r.2.1, r.2.2)

/-- `Node.startRPC` (src/node.go lines 207-234): aggregate the built-in
and per-service APIs, start in-process (registration modelled as total),
then the IPC, HTTP and WS steps with their respective rollbacks. -/
def startRPCm (s : NodeState) (w : World)
    (iter : List (String × Service) → List (String × Service))
    (svcs : List (String × Service)) : NodeState × List Ev × Option GoError :=
  let apis := (iter svcs).foldl (fun a p => a ++ p.2.apis) builtinAPIs
  let s1 := { s with inproc := some apis }
  let r := rpcIPCStage s1 w apis
  (r.1, Ev.epStart Transport.inproc :: r.2.1, r.2.2)

/-- The body of `Node.Start` after the instance lock step (src/node.go
lines 139-187): construct the services, aggregate protocols, start the
peer transport, start each service (rolling back on failure), start the
RPC endpoints (rolling back services and transport on failure), then
commit. -/
def startCore (s1 : NodeState) (w : World)
    (iter : List (String × Service) → List (String × Service)) :
    NodeState × List Ev × Option GoError :=
  match constructServices s1.serviceFuncs [] with
  | Except.error e => (s1, [], some e)
  | Except.ok svcs =>
    let protos := (iter svcs).foldl (fun a p => a ++ p.2.protocols) []
    match w.p2pStartErr with
    | some e => (s1, [], some (convertFileLockError e))
    | none =>
      match startLoop (iter svcs) [] with
      | (ev3, some e) => (s1, [Ev.p2pStart] ++ ev3, some (GoError.custom e))
      | (ev3, none) =>
        match startRPCm s1 w iter svcs with
        | (s2, ev4, some e) =>
          (s2, [Ev.p2pStart] ++ ev3 ++ ev4
                ++ (iter svcs).map (fun p => Ev.svcStop p.1) ++ [Ev.p2pStop],
           some e)
        | (s2, ev4, none) =>
          ({ s2 with services := some svcs, server := some protos, stopCh := true },
           [Ev.p2pStart] ++ ev3 ++ ev4, none)

/-- `Node.Start` (src/node.go lines 115-188). `iter` models the
unspecified iteration order of the Go map `services` wherever the source
ranges over it. -/
def Node.start (s : NodeState) (w : World)
    (iter : List (String × Service) → List (String × Service)) :
    NodeState × List Ev × Option GoError :=
  if s.server.isSome then (s, [], some GoError.nodeRunning)
  else
    match openDataDirM s w with
    | (s1, ev1, some e) => (s1, ev1, some e)
    | (s1, ev1, none) =>
      let r := startCore s1 w iter
      (r.1, ev1 ++ r.2.1, r.2.2)

/-- The service-stop loop of `Node.Stop` (src/node.go lines 359-363):
stop every service, collecting one error per failing kind, never
aborting early. -/
def stopServicesFold : List (String × Service) → List Ev × List (String × String)
  | [] => ([], [])
  | (k, sv) :: rest =>
    let r := stopServicesFold rest
    match sv.stopErr with
    | some e => (Ev.svcStop k :: r.1, (k, e) :: r.2)
    | none => (Ev.svcStop k :: r.1, r.2)

/-- `Node.Stop` (src/node.go lines 346-385): refuse while idle; stop WS,
HTTP, IPC endpoints; drop the API cache; stop every service collecting
failures; stop the transport; release the instance lock (a release
failure is only logged); broadcast the stop signal; remove an ephemeral
keystore; fail on service failures, else on removal failure. -/
def Node.stop (s : NodeState) (w : World)
    (iter : List (String × Service) → List (String × Service)) :
    NodeState × List Ev × Option GoError :=
  if s.server.isSome then
    let r1 := stopWSm s
    let r2 := stopHTTPm r1.1
    let r3 := stopIPCm r2.1
    let s4 := { r3.1 with rpcAPIs := none }
    let svcl := iter (s4.services.getD [])
    let rs := stopServicesFold svcl
    let s5 := { s4 with services := none, server := none }
    let r6 :=
      if s5.instanceDirLock then ({ s5 with instanceDirLock := false }, [Ev.lockReleased])
      else (s5, ([] : List Ev))
    let s7 := { r6.1 with stopCh := false }
    let rk :=
      if s7.ephemeralKeystore = "" then (([] : List Ev), (none : Option String))
      else ([Ev.keystoreRemove], w.keystoreRemoveErr)
    let res : Option GoError :=
      if rs.2.isEmpty then
        match rk.2 with
        | some e => some (GoError.custom e)
        | none => none
      else some (GoError.stopFailure rs.2)
    (s7, r1.2 ++ r2.2 ++ r3.2 ++ rs.1 ++ [Ev.p2pStop] ++ r6.2 ++ [Ev.stopBroadcast] ++ rk.1,
     res)
  else (s, [], some GoError.nodeStopped)

/-- `Node.Service` (src/node.go lines 426-438): the returned error
(`none` = lookup succeeded). -/
def Node.serviceLookup (s : NodeState) (kind : String) : Option GoError :=
  match s.server with
  | none => some GoError.nodeStopped
  | some _ =>
    match (s.services.getD []).find? (fun p => p.1 == kind) with
    | some _ => none
    | none => some GoError.serviceUnknown

/-- An inbound HTTP request, reduced to the header fields the middleware
stack consults. -/
structure Request where
  host : String
  hUpgrade : String
  hConnection : String
  acceptEncoding : String
deriving DecidableEq, Repr

/-- Substring occurrence over character lists: the pattern occurs at
some position of the subject. -/
def listContainsSub (pat : List Char) : List Char → Bool
  | [] => pat.isEmpty
  | c :: rest => pat.isPrefixOf (c :: rest) || listContainsSub pat rest

/-- `strings.Contains`. -/
def strContains (s pat : String) : Bool := listContainsSub pat.data s.data

/-- ASCII lower-casing of one character (the fragment of Unicode case
folding that `strings.ToLower` applies to the header values and host
names in scope). -/
def lowerChar (c : Char) : Char :=
  if 65 ≤ c.toNat && c.toNat ≤ 90 then Char.ofNat (c.toNat + 32) else c

/-- `strings.ToLower`, restricted to ASCII case folding. -/
def lowerStr (s : String) : String := String.mk (s.data.map lowerChar)

/-- `isWebsocket` (src/unnamed/part_001 lines 105-108). -/
def isWebsocket (r : Request) : Bool :=
  lowerStr r.hUpgrade == "websocket" && lowerStr r.hConnection == "upgrade"

/-- Which dispatcher serves a request on a listener. -/
inductive Dispatcher where
  | wsDispatch
  | httpDispatch
deriving DecidableEq, Repr

/-- `NewWebsocketUpgradeHandler` (src/unnamed/part_001 lines 95-104):
requests with the websocket upgrade signature go to the WS dispatcher,
all others to the wrapped HTTP handler. -/
def websocketUpgradeServe (r : Request) : Dispatcher :=
  if isWebsocket r then Dispatcher.wsDispatch else Dispatcher.httpDispatch

/-- Case-insensitive string match (the spec's reading of a header
matching a value "case-insensitively"). -/
def eqCI (a b : String) : Bool := lowerStr a == lowerStr b

/-- The observable outcome of the HTTP middleware stack on one request:
the status, whether the request reached the cross-origin layer, whether
it reached the rpc dispatcher, and whether the response was
gzip-compressed. -/
structure HTTPResponse where
  status : Nat
  corsProcessed : Bool
  servedByRPC : Bool
  gzipped : Bool
deriving DecidableEq, Repr

/-- The rpc dispatcher at the bottom of the stack. -/
def rpcSrvHandler : Request → HTTPResponse := fun _ =>
  { status := 200, corsProcessed := false, servedByRPC := true, gzipped := false }

/-- `newCorsHandler` (src/unnamed/part_001 lines 18-29): with no allowed
origins the inner handler is returned unchanged; otherwise the request
passes through the cross-origin filter (its internals are an external
collaborator; the model records that the layer ran). -/
def newCorsHandler (allowedOrigins : List String) (next : Request → HTTPResponse) :
    Request → HTTPResponse :=
  if allowedOrigins.isEmpty then next
  else fun r => { next r with corsProcessed := true }

/-- The acceptance test of `virtualHostHandler.ServeHTTP`
(src/unnamed/part_001 lines 41-63). `stripPort` models
`net.SplitHostPort` with its fall-back to the raw host on error, and
`isIPLiteral` models `net.ParseIP` succeeding; both are external
collaborators. The configured hosts were lowercased when the map was
built; the request host is looked up verbatim. -/
def vhostAllows (vhosts : List String) (stripPort : String → String)
    (isIPLiteral : String → Bool) (hostHeader : String) : Bool :=
  if hostHeader == "" then true
  else
    let host := stripPort hostHeader
    if isIPLiteral host then true
    else if (vhosts.map lowerStr).contains "*" then true
    else (vhosts.map lowerStr).contains host

/-- `newVHostHandler` + `virtualHostHandler.ServeHTTP`
(src/unnamed/part_001 lines 34-63): reject with 403 Forbidden unless the
host is acceptable. -/
def newVHostHandler (vhosts : List String) (stripPort : String → String)
    (isIPLiteral : String → Bool) (next : Request → HTTPResponse) :
    Request → HTTPResponse := fun r =>
  if vhostAllows vhosts stripPort isIPLiteral r.host then next r
  else { status := 403, corsProcessed := false, servedByRPC := false, gzipped := false }

/-- `newGzipHandler` (src/unnamed/part_001 lines 81-94): wrap the
response in a gzip writer exactly when the client's Accept-Encoding
mentions gzip. -/
def newGzipHandler (next : Request → HTTPResponse) : Request → HTTPResponse := fun r =>
  if strContains r.acceptEncoding "gzip" then { next r with gzipped := true }
  else next r

/-- `NewHTTPHandlerStack` (src/unnamed/part_001 lines 13-17): cors
innermost, then virtual-host check, gzip outermost. -/
def NewHTTPHandlerStack (cors vhosts : List String) (stripPort : String → String)
    (isIPLiteral : String → Bool) : Request → HTTPResponse :=
  newGzipHandler (newVHostHandler vhosts stripPort isIPLiteral
    (newCorsHandler cors rpcSrvHandler))

/-- Which dispatcher the node's bound HTTP listener hands a request to:
`none` when no HTTP endpoint is bound; through the websocket upgrade
wrapper when it was installed. -/
def Node.dispatchHTTP (s : NodeState) (r : Request) : Option Dispatcher :=
  s.http.map (fun c => if c.shared then websocketUpgradeServe r else Dispatcher.httpDispatch)

/-- `DefaultHTTPHost` (src/unnamed/part_000 line 349). -/
def DefaultHTTPHost : String := "localhost"

/-- `DefaultWSHost` (src/unnamed/part_000 line 351). -/
def DefaultWSHost : String := "localhost"

/-- The comma-split-and-trim applied to admin override arguments
(src/api.go, e.g. lines 112-117). -/
def splitAndTrim (arg : String) : List String :=
  (arg.splitOn ",").map String.trim

/-- `PrivateAdminAPI.StartRPC` (src/api.go lines 95-136). Note that the
source computes the virtual-host list by splitting the resolved *host*
argument whenever the vhosts argument is non-null (line 121). -/
def adminStartRPC (s : NodeState) (w : World) (host : Option String) (port : Option Nat)
    (cors apisArg vhosts : Option String) : NodeState × Except GoError Bool :=
  if s.http.isSome then (s, Except.error GoError.httpAlreadyRunning)
  else
    let h := match host with
      | some h0 => h0
      | none => if s.cfg.httpHost = "" then DefaultHTTPHost else s.cfg.httpHost
    let p := match port with
      | some p0 => p0
      | none => s.cfg.httpPort
    let allowedOrigins := match cors with
      | none => s.cfg.httpCors
      | some c => splitAndTrim c
    let allowedVHosts := match vhosts with
      | none => s.cfg.httpVirtualHosts
      | some _ => splitAndTrim h
    let modules := match apisArg with
      | none => s.httpWhitelist
      | some a => splitAndTrim a
    match startHTTPm s w (h ++ ":" ++ toString p) (s.rpcAPIs.getD []) modules
        allowedOrigins allowedVHosts s.cfg.wsOrigins with
    | (s1, _, some e) => (s1, Except.error e)
    | (s1, _, none) => (s1, Except.ok true)

/-- `PrivateAdminAPI.StopRPC` (src/api.go lines 137-145). -/
def adminStopRPC (s : NodeState) : NodeState × Except GoError Bool :=
  if s.http.isSome then ((stopHTTPm s).1, Except.ok true)
  else (s, Except.error GoError.httpNotRunning)

/-- `PrivateAdminAPI.StartWS` (src/api.go lines 146-180). -/
def adminStartWS (s : NodeState) (w : World) (host : Option String) (port : Option Nat)
    (allowedOriginsArg apisArg : Option String) : NodeState × Except GoError Bool :=
  if s.ws.isSome then (s, Except.error GoError.wsAlreadyRunning)
  else
    let h := match host with
      | some h0 => h0
      | none => if s.cfg.wsHost = "" then DefaultWSHost else s.cfg.wsHost
    let p := match port with
      | some p0 => p0
      | none => s.cfg.wsPort
    let origins := match allowedOriginsArg with
      | none => s.cfg.wsOrigins
      | some o => splitAndTrim o
    let modules := match apisArg with
      | none => s.cfg.wsModules
      | some a => splitAndTrim a
    match startWSm s w (h ++ ":" ++ toString p) (s.rpcAPIs.getD []) modules origins
        s.cfg.wsExposeAll with
    | (s1, _, some e) => (s1, Except.error e)
    | (s1, _, none) => (s1, Except.ok true)

/-- `PrivateAdminAPI.StopWS` (src/api.go lines 181-189). -/
def adminStopWS (s : NodeState) : NodeState × Except GoError Bool :=
  if s.ws.isSome then ((stopWSm s).1, Except.ok true)
  else (s, Except.error GoError.wsNotRunning)

/-! ### Concrete fixtures used by counterexamples and witnesses -/

/-- A configuration with no datadir and no external endpoints. -/
def cfg0 : Config :=
  { dataDir := "", ipcPath := "", httpHost := "", httpPort := 0, httpCors := [],
    httpVirtualHosts := [], httpModules := [], wsHost := "", wsPort := 0,
    wsOrigins := [], wsModules := [], wsExposeAll := false }

/-- A world in which every external effect succeeds. -/
def wOK : World :=
  { mkdirErr := none, flockErr := none, p2pStartErr := none, ipcBindErr := none,
    httpBindErr := none, wsBindErr := none, lockReleaseErr := none,
    keystoreRemoveErr := none }

/-- A freshly constructed node with no registered services. -/
def idleNode : NodeState := Node.new cfg0 [] ""

/-- A running node (the committed state after a trivial successful Start). -/
def runningNode : NodeState :=
  { idleNode with server := some [], services := some [], stopCh := true }

/-- A service that starts and stops cleanly. -/
def svcA : Service :=
  { kind := "A", protocols := [], apis := [], startErr := none, stopErr := none }

/-- A second clean service of a distinct kind. -/
def svcB : Service :=
  { kind := "B", protocols := [], apis := [], startErr := none, stopErr := none }

/-- A service whose `Start` fails with "boom". -/
def svcBad : Service :=
  { kind := "B", protocols := [], apis := [], startErr := some "boom", stopErr := none }

/-- A constructor ignoring its context and returning a fixed service. -/
def constOf (sv : Service) : ServiceConstructor := fun _ => Except.ok sv

/-- A constructor that always fails with "boom". -/
def failingCtor : ServiceConstructor := fun _ => Except.error "boom"

/-! ### C4 -/

/-- The whitelist resolution rule exactly as the specification phrases
it: exposeAll beats everything; else a non-empty whitelist selects by
exact namespace match; else only public-flagged APIs. -/
def whitelistSelectionSpec (apis : List API) (modules : List String)
    (exposeAll : Bool) : List API :=
  if exposeAll then apis
  else if modules.isEmpty then apis.filter (fun a => a.public)
  else apis.filter (fun a => modules.contains a.ns)

/-- C4: for every API list, module list and exposeAll flag,
`RegisterApisFromWhitelist` registers exactly the set the specification
describes: every API when exposeAll is set, else exactly the whitelisted
namespaces when the whitelist is non-empty, else only the public APIs.
Requested namespaces absent from the available set only feed a log call
(`checkModuleAvailability`'s result is used in no other way) and the
registration result is a plain list for every module list, so such
namespaces never cause an error. -/
theorem register_apis_whitelist_exact (apis : List API) (modules : List String)
    (exposeAll : Bool) :
    RegisterApisFromWhitelist apis modules exposeAll =
      whitelistSelectionSpec apis modules exposeAll := by
  unfold RegisterApisFromWhitelist whitelistSelectionSpec
  cases exposeAll with
  | true => simp
  | false =>
    cases hm : modules.isEmpty with
    | true =>
      have hnil : modules = [] := by
        cases modules with
        | nil => rfl
        | cons a l => simp at hm
      subst hnil
      simp
    | false =>
      have hcons : modules ≠ [] := by
        intro hc
        subst hc
        simp at hm
      simp only [hm, Bool.false_or, if_false]
      apply List.filter_congr
      intro a _
      cases hc : modules.contains a.ns <;> simp [hm]

/-! ### C8 -/

/-- C8: lifecycle misuse is rejected without state change — `Start` on a
running node returns `ErrNodeRunning` leaving the state untouched, and
`Stop` on an idle node returns `ErrNodeStopped` leaving the state
untouched (src/node.go lines 115-120 and 346-351). -/
theorem lifecycle_misuse_rejected (s : NodeState) (w : World)
    (iter : List (String × Service) → List (String × Service)) :
    (s.server.isSome → Node.start s w iter = (s, [], some GoError.nodeRunning)) ∧
    (s.server = none → Node.stop s w iter = (s, [], some GoError.nodeStopped)) := by
  constructor
  · intro h
    unfold Node.start
    simp [h]
  · intro h
    unfold Node.stop
    simp [h]

/-- Witness for C8 at a concrete running node and a concrete idle node. -/
theorem lifecycle_misuse_rejected_witness :
    Node.start runningNode wOK id = (runningNode, [], some GoError.nodeRunning) ∧
    Node.stop idleNode wOK id = (idleNode, [], some GoError.nodeStopped) :=
  ⟨(lifecycle_misuse_rejected runningNode wOK id).1 rfl,
   (lifecycle_misuse_rejected idleNode wOK id).2 rfl⟩

/-! ### C6 -/

/-- A request carrying no host header. -/
def reqEmptyHost : Request :=
  { host := "", hUpgrade := "", hConnection := "", acceptEncoding := "" }

/-- C6 counterexample: the claim's "rejecting with Forbidden exactly
when the host, stripped of port, is not an IP literal, not the wildcard
host, and not in the configured virtual-host set" fails for a request
with an empty host header: it satisfies every reject condition (the
empty host is no IP literal under the chosen collaborator, the wildcard
is not configured, and the empty host is not in the configured set), yet
the stack serves it with 200 because `virtualHostHandler.ServeHTTP`
passes empty-host requests through unconditionally
(src/unnamed/part_001 lines 42-45). -/
theorem vhost_empty_host_bypass_cex :
    (NewHTTPHandlerStack [] ["example.com"] id (fun _ => false) reqEmptyHost).status
        = 200 ∧
    (fun (_ : String) => false) (id reqEmptyHost.host) = false ∧
    ((["example.com"].map lowerStr).contains "*") = false ∧
    ((["example.com"].map lowerStr).contains (id reqEmptyHost.host)) = false := by
  refine ⟨?_, rfl, ?_, ?_⟩ <;> decide

/-- C6 (amended): every HTTP request passes through the fixed pipeline —
virtual-host check first, then cross-origin filtering, then gzip applied
to the response — where the virtual-host check rejects with 403
Forbidden exactly when the host header is non-empty and, stripped of
port, is neither an IP literal nor covered by the wildcard nor in the
configured set (requests with an empty host header bypass the check);
the cross-origin layer runs only on requests that passed the
virtual-host check (and only when origins are configured, since
`newCorsHandler` is the identity otherwise); and gzip compression is
applied exactly when the client's Accept-Encoding advertises gzip. -/
theorem http_pipeline_order_and_filters (cors vhosts : List String)
    (stripPort : String → String) (isIPLiteral : String → Bool) (r : Request) :
    (NewHTTPHandlerStack cors vhosts stripPort isIPLiteral r).status
        = (if vhostAllows vhosts stripPort isIPLiteral r.host then 200 else 403) ∧
    vhostAllows vhosts stripPort isIPLiteral r.host
        = (r.host == "" || isIPLiteral (stripPort r.host)
            || (vhosts.map lowerStr).contains "*"
            || (vhosts.map lowerStr).contains (stripPort r.host)) ∧
    (NewHTTPHandlerStack cors vhosts stripPort isIPLiteral r).servedByRPC
        = vhostAllows vhosts stripPort isIPLiteral r.host ∧
    (NewHTTPHandlerStack cors vhosts stripPort isIPLiteral r).corsProcessed
        = (vhostAllows vhosts stripPort isIPLiteral r.host && !cors.isEmpty) ∧
    (NewHTTPHandlerStack cors vhosts stripPort isIPLiteral r).gzipped
        = strContains r.acceptEncoding "gzip" := by
  have hv : vhostAllows vhosts stripPort isIPLiteral r.host
      = (r.host == "" || isIPLiteral (stripPort r.host)
          || (vhosts.map lowerStr).contains "*"
          || (vhosts.map lowerStr).contains (stripPort r.host)) := by
    unfold vhostAllows
    by_cases h0 : r.host == ""
    all_goals by_cases h1 : isIPLiteral (stripPort r.host) = true
    all_goals by_cases h2 : (vhosts.map lowerStr).contains "*" = true
    all_goals by_cases h3 : (vhosts.map lowerStr).contains (stripPort r.host) = true
    all_goals simp only [h0, h1, h2, h3, if_true, if_false, Bool.true_or, Bool.or_true,
      Bool.false_or, Bool.or_false, eq_self_iff_true, Bool.not_eq_true] at *
    all_goals simp [h0, h1, h2, h3]
  refine ⟨?_, hv, ?_, ?_, ?_⟩ <;>
    · unfold NewHTTPHandlerStack newGzipHandler newVHostHandler newCorsHandler
        rpcSrvHandler
      by_cases hva : vhostAllows vhosts stripPort isIPLiteral r.host = true
      all_goals by_cases h4 : strContains r.acceptEncoding "gzip" = true
      all_goals by_cases h5 : cors.isEmpty = true
      all_goals simp [hva, h4, h5]

/-! ### C10 -/

/-- A string with a colon spliced into the middle is never empty. -/
theorem colon_append_ne_empty (a b : String) : a ++ ":" ++ b ≠ "" := by
  intro h
  have hd : (a ++ ":" ++ b).data = ("" : String).data := by rw [h]
  have hcolon : (":" : String).data = [':'] := rfl
  simp [String.data_append, hcolon] at hd

/-- C10: when the admin `StartRPC` is called with a non-null vhosts
override, the virtual-host set installed on the restarted HTTP endpoint
is the comma-split-and-trimmed *host* argument (src/api.go line 121
splits `*host`, not `*vhosts`), and the content of the vhosts argument
never influences the outcome: the whole call result is identical for any
two non-null vhosts arguments. -/
theorem admin_start_rpc_vhosts_from_host_arg (s : NodeState) (w : World) (h : String)
    (port : Option Nat) (cors apisArg : Option String) (v v' : String)
    (hoff : s.http = none) (hbind : w.httpBindErr = none) :
    ((adminStartRPC s w (some h) port cors apisArg (some v)).1.http.map HTTPConf.vhosts)
        = some (splitAndTrim h) ∧
    adminStartRPC s w (some h) port cors apisArg (some v)
        = adminStartRPC s w (some h) port cors apisArg (some v') := by
  have hne : (h ++ ":" ++ toString (match port with
      | some p0 => p0
      | none => s.cfg.httpPort)) ≠ "" := colon_append_ne_empty _ _
  unfold adminStartRPC startHTTPm
  simp [hoff, hbind, hne]

/-- Witness for C10 at a concrete idle node and concrete arguments. -/
theorem admin_start_rpc_vhosts_from_host_arg_witness :
    ((adminStartRPC idleNode wOK (some "a ,b") none none none (some "x")).1.http.map
        HTTPConf.vhosts) = some (splitAndTrim "a ,b") ∧
    adminStartRPC idleNode wOK (some "a ,b") none none none (some "x")
        = adminStartRPC idleNode wOK (some "a ,b") none none none (some "y") :=
  admin_start_rpc_vhosts_from_host_arg idleNode wOK "a ,b" none none none "x" "y" rfl rfl

/-! ### C3 -/

/-- C3 counterexample: the administrative `StartRPC` is not gated on the
node Running. On a freshly constructed, never-started node (peer
transport absent) the call succeeds and binds an HTTP endpoint, so an
endpoint exists while the node is Idle: `StartRPC` only checks that the
HTTP handler is currently nil (src/api.go line 98), never that the node
is running. -/
theorem admin_start_rpc_while_idle_cex :
    idleNode.server = none ∧
    (adminStartRPC idleNode wOK none none none none none).2 = Except.ok true ∧
    (adminStartRPC idleNode wOK none none none none none).1.http.isSome = true ∧
    (adminStartRPC idleNode wOK none none none none none).1.server = none :=
  ⟨rfl, rfl, rfl, rfl⟩

/-- C3 (amended): the administrative per-transport operations are gated
only on that transport's own state, not on the node Running: a start
fails (leaving the state unchanged) exactly when that transport is
already active, and a stop fails (leaving the state unchanged) exactly
when it is already inactive; consequently an HTTP or WS endpoint can be
brought up by the admin interface while the node is Idle. Moreover
`Node.Stop` never tears down the in-process endpoint, which therefore
also survives into the Idle state. -/
theorem admin_transport_ops_gated_by_transport_state (s : NodeState) (w : World)
    (host : Option String) (port : Option Nat) (a1 a2 a3 : Option String)
    (iter : List (String × Service) → List (String × Service)) :
    (s.http.isSome →
      adminStartRPC s w host port a1 a2 a3 = (s, Except.error GoError.httpAlreadyRunning)) ∧
    (s.http = none → adminStopRPC s = (s, Except.error GoError.httpNotRunning)) ∧
    (s.ws.isSome →
      adminStartWS s w host port a1 a2 = (s, Except.error GoError.wsAlreadyRunning)) ∧
    (s.ws = none → adminStopWS s = (s, Except.error GoError.wsNotRunning)) ∧
    (Node.stop s w iter).1.inproc = s.inproc := by
  refine ⟨?_, ?_, ?_, ?_, ?_⟩
  · intro hh
    unfold adminStartRPC
    simp [hh]
  · intro hh
    unfold adminStopRPC
    simp [hh]
  · intro hw
    unfold adminStartWS
    simp [hw]
  · intro hw
    unfold adminStopWS
    simp [hw]
  · unfold Node.stop stopWSm stopHTTPm stopIPCm
    by_cases hs : s.server.isSome
    all_goals by_cases h1 : s.ws.isSome
    all_goals by_cases h2 : s.http.isSome
    all_goals by_cases h3 : s.ipc.isSome
    all_goals by_cases h4 : s.instanceDirLock
    all_goals by_cases h5 : s.ephemeralKeystore = ""
    all_goals simp_all

/-- Witness for C3's amended theorem: the gating checks at a node with
an active HTTP endpoint and no WS endpoint, and in-process survival of a
Stop at a running node. -/
theorem admin_transport_ops_gated_witness :
    (adminStartRPC (adminStartRPC idleNode wOK none none none none none).1 wOK
        none none none none none)
      = ((adminStartRPC idleNode wOK none none none none none).1,
         Except.error GoError.httpAlreadyRunning) ∧
    adminStopRPC idleNode = (idleNode, Except.error GoError.httpNotRunning) ∧
    adminStopWS idleNode = (idleNode, Except.error GoError.wsNotRunning) ∧
    (Node.stop runningNode wOK id).1.inproc = runningNode.inproc :=
  ⟨(admin_transport_ops_gated_by_transport_state
      (adminStartRPC idleNode wOK none none none none none).1 wOK
      none none none none none id).1 rfl,
   (admin_transport_ops_gated_by_transport_state idleNode wOK
      none none none none none id).2.1 rfl,
   (admin_transport_ops_gated_by_transport_state idleNode wOK
      none none none none none id).2.2.2.1 rfl,
   (admin_transport_ops_gated_by_transport_state runningNode wOK
      none none none none none id).2.2.2.2⟩

/-! ### C9 -/

/-- C9: when the construction loop detects two services of the same
concrete kind, `Start` fails with `DuplicateServiceError` and no
service's `start` is ever called in that pass: the collision check
(src/node.go lines 154-157) happens during construction, before the
start loop at lines 166-176 is reached. -/
theorem duplicate_service_aborts_before_any_start (s : NodeState) (w : World)
    (iter : List (String × Service) → List (String × Service)) (k : String)
    (hidle : s.server = none)
    (hmk : w.mkdirErr = none) (hfl : w.flockErr = none)
    (hdup : constructServices s.serviceFuncs []
        = Except.error (GoError.duplicateService k)) :
    (Node.start s w iter).2.2 = some (GoError.duplicateService k) ∧
    ∀ kk, Ev.svcStart kk ∉ (Node.start s w iter).2.1 := by
  unfold Node.start openDataDirM startCore
  by_cases hd : s.cfg.dataDir = ""
  · simp [hidle, hd, hdup]
  · simp [hidle, hd, hmk, hfl, hdup]

/-- A node registering the same service constructor twice. -/
def dupNode : NodeState := Node.new cfg0 [constOf svcA, constOf svcA] ""

/-- Witness for C9: two constructors yielding kind "A". -/
theorem duplicate_service_aborts_before_any_start_witness :
    (Node.start dupNode wOK id).2.2 = some (GoError.duplicateService "A") ∧
    Ev.svcStart "A" ∉ (Node.start dupNode wOK id).2.1 :=
  ⟨(duplicate_service_aborts_before_any_start dupNode wOK id "A" rfl rfl rfl rfl).1,
   (duplicate_service_aborts_before_any_start dupNode wOK id "A" rfl rfl rfl rfl).2 "A"⟩

/-! ### C7 -/

/-- The service-stop loop emits exactly one stop call per service, in
iteration order. -/
theorem stopServicesFold_events (l : List (String × Service)) :
    (stopServicesFold l).1 = l.map (fun p => Ev.svcStop p.1) := by
  induction l with
  | nil => rfl
  | cons hd tl ih =>
    obtain ⟨k, sv⟩ := hd
    unfold stopServicesFold
    cases sv.stopErr <;> simp [ih]

/-- The service-stop loop accumulates exactly one error per failing
service kind, in iteration order. -/
theorem stopServicesFold_failures (l : List (String × Service)) :
    (stopServicesFold l).2
      = l.filterMap (fun p => p.2.stopErr.map (fun e => (p.1, e))) := by
  induction l with
  | nil => rfl
  | cons hd tl ih =>
    obtain ⟨k, sv⟩ := hd
    unfold stopServicesFold
    cases h : sv.stopErr <;> simp [h, ih, List.filterMap_cons]

/-- Closed form of `Node.Stop` on a running node: the final state, the
teardown trace in its fixed order, and the returned error. -/
theorem node_stop_closed_form (s : NodeState) (w : World)
    (iter : List (String × Service) → List (String × Service))
    (ps : List String) (svcs : List (String × Service))
    (hrun : s.server = some ps) (hsvcs : s.services = some svcs) :
    Node.stop s w iter =
      ({ s with
          ws := none, http := none, ipc := none, rpcAPIs := none,
          services := none, server := none, instanceDirLock := false,
          stopCh := false },
       (if s.ws.isSome then [Ev.epStop Transport.ws] else [])
        ++ (if s.http.isSome then [Ev.epStop Transport.http] else [])
        ++ (if s.ipc.isSome then [Ev.epStop Transport.ipc] else [])
        ++ (iter svcs).map (fun p => Ev.svcStop p.1) ++ [Ev.p2pStop]
        ++ (if s.instanceDirLock then [Ev.lockReleased] else [])
        ++ [Ev.stopBroadcast]
        ++ (if s.ephemeralKeystore = "" then [] else [Ev.keystoreRemove]),
       if (stopServicesFold (iter svcs)).2.isEmpty then
         (if s.ephemeralKeystore = "" then none
          else match w.keystoreRemoveErr with
            | some e => some (GoError.custom e)
            | none => none)
       else some (GoError.stopFailure (stopServicesFold (iter svcs)).2)) := by
  unfold Node.stop stopWSm stopHTTPm stopIPCm
  by_cases h1 : s.ws.isSome
  all_goals by_cases h2 : s.http.isSome
  all_goals by_cases h3 : s.ipc.isSome
  all_goals by_cases h4 : s.instanceDirLock
  all_goals by_cases h5 : s.ephemeralKeystore = ""
  all_goals simp_all [stopServicesFold_events]

/-- C7: `Stop` on a running node tears down in the fixed order WS, HTTP,
local-socket, then stops every constructed service without aborting on
individual failures, accumulating one error per failing kind, then stops
the peer transport, releases the instance lock, broadcasts the stopped
signal and removes an ephemeral keystore; it returns an error exactly
when some service stop failed or the ephemeral removal failed, and a
lock-release failure alone never changes the outcome (it is only
logged — `Node.Stop` never consults it). -/
theorem stop_teardown_order_and_result (s : NodeState) (w : World)
    (iter : List (String × Service) → List (String × Service))
    (ps : List String) (svcs : List (String × Service))
    (hrun : s.server = some ps) (hsvcs : s.services = some svcs)
    (hperm : (iter svcs).Perm svcs) :
    (Node.stop s w iter).2.1 =
      (if s.ws.isSome then [Ev.epStop Transport.ws] else [])
        ++ (if s.http.isSome then [Ev.epStop Transport.http] else [])
        ++ (if s.ipc.isSome then [Ev.epStop Transport.ipc] else [])
        ++ (iter svcs).map (fun p => Ev.svcStop p.1) ++ [Ev.p2pStop]
        ++ (if s.instanceDirLock then [Ev.lockReleased] else [])
        ++ [Ev.stopBroadcast]
        ++ (if s.ephemeralKeystore = "" then [] else [Ev.keystoreRemove]) ∧
    (∀ p ∈ svcs, Ev.svcStop p.1 ∈ (Node.stop s w iter).2.1) ∧
    (stopServicesFold (iter svcs)).2
      = (iter svcs).filterMap (fun p => p.2.stopErr.map (fun e => (p.1, e))) ∧
    ((Node.stop s w iter).2.2 ≠ none ↔
      ((iter svcs).filterMap (fun p => p.2.stopErr.map (fun e => (p.1, e))) ≠ []
        ∨ (s.ephemeralKeystore ≠ "" ∧ w.keystoreRemoveErr ≠ none))) ∧
    (∀ e, Node.stop s { w with lockReleaseErr := e } iter = Node.stop s w iter) ∧
    ((Node.stop s w iter).1.ws = none ∧ (Node.stop s w iter).1.http = none
      ∧ (Node.stop s w iter).1.ipc = none ∧ (Node.stop s w iter).1.rpcAPIs = none
      ∧ (Node.stop s w iter).1.services = none ∧ (Node.stop s w iter).1.server = none
      ∧ (Node.stop s w iter).1.instanceDirLock = false) := by
  have hcf := node_stop_closed_form s w iter ps svcs hrun hsvcs
  refine ⟨?_, ?_, stopServicesFold_failures _, ?_, ?_, ?_⟩
  · rw [hcf]
  · intro p hp
    rw [hcf]
    have hpi : p ∈ iter svcs := hperm.mem_iff.mpr hp
    simp only [List.mem_append, List.mem_map]
    exact Or.inl (Or.inl (Or.inl (Or.inl (Or.inr ⟨p, hpi, rfl⟩))))
  · rw [hcf]
    rw [stopServicesFold_failures]
    by_cases hf : (iter svcs).filterMap (fun p => p.2.stopErr.map (fun e => (p.1, e))) = []
    · by_cases hk : s.ephemeralKeystore = ""
      · simp [hf, hk]
      · cases hkr : w.keystoreRemoveErr <;> simp [hf, hk, hkr]
    · simp [hf, List.isEmpty_iff]
  · intro e
    rw [node_stop_closed_form s { w with lockReleaseErr := e } iter ps svcs hrun hsvcs, hcf]
  · rw [hcf]
    exact ⟨rfl, rfl, rfl, rfl, rfl, rfl, rfl⟩

/-- A running node carrying one endpoint of each transport, one clean
and one stop-failing service, a held instance lock and an ephemeral
keystore. -/
def richRunningNode : NodeState :=
  { cfg := cfg0, serviceFuncs := [],
    services := some [("A", svcA),
      ("C", { kind := "C", protocols := [], apis := [], startErr := none,
              stopErr := some "cboom" })],
    server := some [], instanceDirLock := true, rpcAPIs := some [],
    inproc := some [], ipc := some [], http := some
      { endpoint := "h:1", corsAllowed := [], vhosts := [], registered := [],
        shared := false, wsOrigins := [] },
    ws := some { endpoint := "h:2", origins := [], registered := [] },
    ipcEndpoint := "p", httpEndpoint := "h:1", wsEndpoint := "h:2",
    httpWhitelist := [], ephemeralKeystore := "tmp", stopCh := true }

/-- Witness for C7 at a concrete running node with a failing service. -/
theorem stop_teardown_order_and_result_witness :
    (Node.stop richRunningNode wOK id).2.1 =
      [Ev.epStop Transport.ws, Ev.epStop Transport.http, Ev.epStop Transport.ipc,
       Ev.svcStop "A", Ev.svcStop "C", Ev.p2pStop, Ev.lockReleased,
       Ev.stopBroadcast, Ev.keystoreRemove] ∧
    ((Node.stop richRunningNode wOK id).2.2 ≠ none ↔
      (([("A", svcA),
         ("C", { kind := "C", protocols := [], apis := [], startErr := none,
                 stopErr := some "cboom" })] :
          List (String × Service)).filterMap
            (fun p => p.2.stopErr.map (fun e => (p.1, e))) ≠ []
        ∨ (richRunningNode.ephemeralKeystore ≠ ""
            ∧ wOK.keystoreRemoveErr ≠ none))) := by
  have h := stop_teardown_order_and_result richRunningNode wOK id []
    [("A", svcA),
     ("C", { kind := "C", protocols := [], apis := [], startErr := none,
             stopErr := some "cboom" })] rfl rfl (List.Perm.refl _)
  exact ⟨by rw [h.1]; rfl, h.2.2.2.1⟩

/-! ### Start decomposition lemmas -/

/-- `openDataDir` when the external effects succeed. -/
theorem openDataDirM_ok (s : NodeState) (w : World)
    (hmk : w.mkdirErr = none) (hfl : w.flockErr = none) :
    openDataDirM s w =
      (if s.cfg.dataDir = "" then s else { s with instanceDirLock := true },
       if s.cfg.dataDir = "" then [] else [Ev.lockAcquired], none) := by
  unfold openDataDirM
  by_cases hd : s.cfg.dataDir = "" <;> simp [hd, hmk, hfl]

/-- `Node.Start` on an idle node with a working filesystem reduces to
the post-lock body applied to the (possibly lock-holding) state. -/
theorem node_start_decompose_ok (s : NodeState) (w : World)
    (iter : List (String × Service) → List (String × Service))
    (hidle : s.server = none)
    (hmk : w.mkdirErr = none) (hfl : w.flockErr = none) :
    Node.start s w iter =
      ((startCore (if s.cfg.dataDir = "" then s
          else { s with instanceDirLock := true }) w iter).1,
       (if s.cfg.dataDir = "" then [] else [Ev.lockAcquired])
         ++ (startCore (if s.cfg.dataDir = "" then s
              else { s with instanceDirLock := true }) w iter).2.1,
       (startCore (if s.cfg.dataDir = "" then s
          else { s with instanceDirLock := true }) w iter).2.2) := by
  unfold Node.start
  rw [openDataDirM_ok s w hmk hfl]
  by_cases hd : s.cfg.dataDir = "" <;> simp [hidle, hd]

/-- The start loop succeeds when every service's start succeeds, calling
each exactly once in iteration order. -/
theorem startLoop_all_ok (l : List (String × Service)) (started : List String)
    (h : ∀ p ∈ l, p.2.startErr = none) :
    startLoop l started = (l.map (fun p => Ev.svcStart p.1), none) := by
  induction l generalizing started with
  | nil => rfl
  | cons hd tl ih =>
    obtain ⟨k, sv⟩ := hd
    have hk : sv.startErr = none := h (k, sv) (List.mem_cons_self _ _)
    unfold startLoop
    rw [hk]
    simp [ih (started ++ [k]) (fun p hp => h p (List.mem_cons_of_mem _ hp))]

/-- The start loop on the first failing service: every earlier service
was started, the failing one's start was called, then each started
service is stopped in start order and the transport is stopped. -/
theorem startLoop_first_fail (pre : List (String × Service)) (k : String) (sv : Service)
    (post : List (String × Service)) (e : String) (started : List String)
    (hpre : ∀ p ∈ pre, p.2.startErr = none) (hfail : sv.startErr = some e) :
    startLoop (pre ++ (k, sv) :: post) started =
      (pre.map (fun p => Ev.svcStart p.1) ++ [Ev.svcStart k]
        ++ (started ++ pre.map (fun p => p.1)).map Ev.svcStop ++ [Ev.p2pStop],
       some e) := by
  induction pre generalizing started with
  | nil =>
    rw [List.nil_append]
    unfold startLoop
    rw [hfail]
    simp
  | cons hd tl ih =>
    obtain ⟨k0, sv0⟩ := hd
    have h0 : sv0.startErr = none := hpre (k0, sv0) (List.mem_cons_self _ _)
    rw [List.cons_append]
    unfold startLoop
    rw [h0, ih (started ++ [k0]) (fun p hp => hpre p (List.mem_cons_of_mem _ hp))]
    simp

/-! ### C2 -/

/-- A node registering two clean services A then B. -/
def abNode : NodeState := Node.new cfg0 [constOf svcA, constOf svcB] ""

/-- C2 counterexample: the claim asserts that `start` is called on the
constructed services in construction order, but the source starts them
by ranging over the Go map `services` (src/node.go line 167), whose
iteration order is unspecified. With services constructed in order A, B,
the reversed iteration order — a permutation of the map's content, hence
a legal execution — calls B's start before A's, so the claimed order
fails on that execution. -/
theorem start_order_follows_map_iteration_cex :
    constructServices abNode.serviceFuncs [] = Except.ok [("A", svcA), ("B", svcB)] ∧
    (List.reverse [("A", svcA), ("B", svcB)]).Perm [("A", svcA), ("B", svcB)] ∧
    (Node.start abNode wOK List.reverse).2.2 = none ∧
    (Node.start abNode wOK List.reverse).2.1 =
      [Ev.p2pStart, Ev.svcStart "B", Ev.svcStart "A", Ev.epStart Transport.inproc] ∧
    [Ev.svcStart "B", Ev.svcStart "A"] ≠ [Ev.svcStart "A", Ev.svcStart "B"] := by
  refine ⟨rfl, by decide, rfl, rfl, by decide⟩

/-- C2 (amended): `start(transport-handle)` is called on the constructed
services in the map-iteration order (an arbitrary permutation of
construction order, not necessarily construction order itself); when the
service at position i of that order fails, every service earlier in that
order had its start called, `stop()` is called exactly once on each of
them in their start order, the peer transport is stopped, `Start`
returns the triggering error, the node retains no service map or
transport handle, and `Node.Service` for any kind afterwards fails with
`ErrNodeStopped`. -/
theorem service_start_failure_rollback (s : NodeState) (w : World)
    (iter : List (String × Service) → List (String × Service))
    (svcs pre post : List (String × Service)) (k : String) (sv : Service) (e : String)
    (hidle : s.server = none) (hsvcnone : s.services = none)
    (hmk : w.mkdirErr = none) (hfl : w.flockErr = none)
    (hctor : constructServices s.serviceFuncs [] = Except.ok svcs)
    (hp2p : w.p2pStartErr = none)
    (hiter : iter svcs = pre ++ (k, sv) :: post)
    (hpre : ∀ p ∈ pre, p.2.startErr = none)
    (hfail : sv.startErr = some e) :
    (Node.start s w iter).2.2 = some (GoError.custom e) ∧
    (Node.start s w iter).2.1 =
      (if s.cfg.dataDir = "" then [] else [Ev.lockAcquired])
        ++ [Ev.p2pStart] ++ pre.map (fun p => Ev.svcStart p.1) ++ [Ev.svcStart k]
        ++ (pre.map (fun p => p.1)).map Ev.svcStop ++ [Ev.p2pStop] ∧
    (Node.start s w iter).1.server = none ∧
    (Node.start s w iter).1.services = none ∧
    (∀ kind, Node.serviceLookup ((Node.start s w iter).1) kind
        = some GoError.nodeStopped) := by
  have hsl := startLoop_first_fail pre k sv post e [] hpre hfail
  rw [node_start_decompose_ok s w iter hidle hmk hfl]
  by_cases hd : s.cfg.dataDir = ""
  all_goals
    simp only [hd, if_true, if_false, ite_true, ite_false]
  all_goals
    unfold startCore
    rw [hctor]
  all_goals
    simp only [hp2p]
    rw [hiter, hsl]
  all_goals
    unfold Node.serviceLookup
    simp [hidle, hsvcnone, List.append_assoc]

/-- A node registering healthy A then start-failing B. -/
def abFailNode : NodeState := Node.new cfg0 [constOf svcA, constOf svcBad] ""

/-- Witness for C2's amended theorem: A starts, B's start fails with
"boom", A is stopped, the transport is stopped, the error is returned
and lookups fail with `ErrNodeStopped`. -/
theorem service_start_failure_rollback_witness :
    (Node.start abFailNode wOK id).2.2 = some (GoError.custom "boom") ∧
    (Node.start abFailNode wOK id).2.1 =
      (if abFailNode.cfg.dataDir = "" then [] else [Ev.lockAcquired])
        ++ [Ev.p2pStart] ++ [("A", svcA)].map (fun p => Ev.svcStart p.1)
        ++ [Ev.svcStart "B"]
        ++ ([("A", svcA)].map (fun p => p.1)).map Ev.svcStop ++ [Ev.p2pStop] ∧
    (Node.start abFailNode wOK id).1.server = none ∧
    (Node.start abFailNode wOK id).1.services = none ∧
    (∀ kind, Node.serviceLookup ((Node.start abFailNode wOK id).1) kind
        = some GoError.nodeStopped) :=
  service_start_failure_rollback abFailNode wOK id
    [("A", svcA), ("B", svcBad)] [("A", svcA)] [] "B" svcBad "boom"
    rfl rfl rfl rfl rfl rfl rfl (by decide) rfl

/-! ### C5 -/

/-- `startCore` commits when construction, the transport, every service
start and the endpoint phase succeed. -/
theorem startCore_commit (s1 : NodeState) (w : World)
    (iter : List (String × Service) → List (String × Service))
    (svcs : List (String × Service)) (s2 : NodeState) (ev4 : List Ev)
    (hctor : constructServices s1.serviceFuncs [] = Except.ok svcs)
    (hp2p : w.p2pStartErr = none)
    (hstart : ∀ p ∈ iter svcs, p.2.startErr = none)
    (hrpc : startRPCm s1 w iter svcs = (s2, ev4, none)) :
    startCore s1 w iter =
      ({ s2 with
          services := some svcs,
          server := some ((iter svcs).foldl (fun a p => a ++ p.2.protocols) []),
          stopCh := true },
       [Ev.p2pStart] ++ (iter svcs).map (fun p => Ev.svcStart p.1) ++ ev4,
       none) := by
  unfold startCore
  simp only [hctor, hp2p, startLoop_all_ok (iter svcs) [] hstart, hrpc]

/-- The RPC phase on a node whose HTTP and WS endpoints coincide and are
non-empty: it succeeds (given a working filesystem and sockets), installs
the websocket upgrade wrapper on the single HTTP listener, and starts no
separate WS endpoint. -/
theorem startRPCm_shared (s1 : NodeState) (w : World)
    (iter : List (String × Service) → List (String × Service))
    (svcs : List (String × Service))
    (heq : s1.httpEndpoint = s1.wsEndpoint) (hne : s1.httpEndpoint ≠ "")
    (hws : s1.ws = none)
    (hipc : s1.ipcEndpoint = "" ∨ w.ipcBindErr = none)
    (hhb : w.httpBindErr = none) :
    (startRPCm s1 w iter svcs).2.2 = none ∧
    ((startRPCm s1 w iter svcs).1.http.map HTTPConf.shared) = some true ∧
    (startRPCm s1 w iter svcs).1.ws = none := by
  have hbeq : (s1.httpEndpoint == s1.wsEndpoint) = true := by
    rw [heq]
    exact beq_self_eq_true _
  have hne' : s1.wsEndpoint ≠ "" := heq ▸ hne
  unfold startRPCm rpcIPCStage rpcHTTPStage rpcWSStage startIPCm startHTTPm startWSm
  rcases hipc with hie | hiok
  · simp [hie, hne, hne', hhb, heq, hbeq, hws]
  · by_cases hie : s1.ipcEndpoint = ""
    · simp [hie, hne, hne', hhb, heq, hbeq, hws]
    · simp [hie, hiok, hne, hne', hhb, heq, hbeq, hws]

/-- `startCore` under the same shared-endpoint hypotheses. -/
theorem startCore_shared (s1 : NodeState) (w : World)
    (iter : List (String × Service) → List (String × Service))
    (svcs : List (String × Service))
    (heq : s1.httpEndpoint = s1.wsEndpoint) (hne : s1.httpEndpoint ≠ "")
    (hws : s1.ws = none)
    (hctor : constructServices s1.serviceFuncs [] = Except.ok svcs)
    (hp2p : w.p2pStartErr = none)
    (hstart : ∀ p ∈ iter svcs, p.2.startErr = none)
    (hipc : s1.ipcEndpoint = "" ∨ w.ipcBindErr = none)
    (hhb : w.httpBindErr = none) :
    (startCore s1 w iter).2.2 = none ∧
    ((startCore s1 w iter).1.http.map HTTPConf.shared) = some true ∧
    (startCore s1 w iter).1.ws = none := by
  obtain ⟨hrE, hrH, hrW⟩ := startRPCm_shared s1 w iter svcs heq hne hws hipc hhb
  rcases hrpc : startRPCm s1 w iter svcs with ⟨s2, ev4, oe⟩
  rw [hrpc] at hrE hrH hrW
  dsimp only at hrE hrH hrW
  subst hrE
  rw [startCore_commit s1 w iter svcs s2 ev4 hctor hp2p hstart hrpc]
  exact ⟨rfl, hrH, hrW⟩

/-- The source's websocket test agrees with the spec's case-insensitive
reading of the upgrade signature. -/
theorem isWebsocket_eqCI (r : Request) :
    isWebsocket r = (eqCI r.hUpgrade "websocket" && eqCI r.hConnection "upgrade") := by
  unfold isWebsocket eqCI
  have h1 : lowerStr "websocket" = "websocket" := by decide
  have h2 : lowerStr "upgrade" = "upgrade" := by decide
  rw [h1, h2]

/-- On a node whose HTTP endpoint carries the upgrade wrapper, requests
are demultiplexed by the websocket signature, case-insensitively. -/
theorem dispatch_of_shared (s : NodeState)
    (hsh : (s.http.map HTTPConf.shared) = some true) (r : Request) :
    Node.dispatchHTTP s r =
      some (if eqCI r.hUpgrade "websocket" && eqCI r.hConnection "upgrade"
            then Dispatcher.wsDispatch else Dispatcher.httpDispatch) := by
  unfold Node.dispatchHTTP websocketUpgradeServe
  rcases hh : s.http with _ | conf
  · rw [hh] at hsh
    simp at hsh
  · rw [hh] at hsh
    simp only [Option.map_some'] at hsh
    simp only [Option.map_some']
    rw [show conf.shared = true from by injection hsh]
    rw [isWebsocket_eqCI r]
    simp

/-- C5: with the WS endpoint string equal to the (non-empty) HTTP
endpoint string, a successful `Start` binds exactly one listener: the
HTTP endpoint is up with the websocket upgrade wrapper installed, no
separate WS endpoint exists, and every request whose Upgrade/Connection
headers match the websocket signature case-insensitively goes to the WS
dispatcher while all others go to the HTTP dispatcher
(src/node.go lines 224-231 and 286-288, src/unnamed/part_001 95-108). -/
theorem shared_endpoint_single_listener (s : NodeState) (w : World)
    (iter : List (String × Service) → List (String × Service))
    (svcs : List (String × Service))
    (hidle : s.server = none) (hws : s.ws = none)
    (heq : s.httpEndpoint = s.wsEndpoint) (hne : s.httpEndpoint ≠ "")
    (hmk : w.mkdirErr = none) (hfl : w.flockErr = none)
    (hctor : constructServices s.serviceFuncs [] = Except.ok svcs)
    (hp2p : w.p2pStartErr = none)
    (hstart : ∀ p ∈ iter svcs, p.2.startErr = none)
    (hipc : s.ipcEndpoint = "" ∨ w.ipcBindErr = none)
    (hhb : w.httpBindErr = none) :
    (Node.start s w iter).2.2 = none ∧
    ((Node.start s w iter).1.http.map HTTPConf.shared) = some true ∧
    (Node.start s w iter).1.ws = none ∧
    (∀ r, Node.dispatchHTTP ((Node.start s w iter).1) r =
      some (if eqCI r.hUpgrade "websocket" && eqCI r.hConnection "upgrade"
            then Dispatcher.wsDispatch else Dispatcher.httpDispatch)) := by
  rw [node_start_decompose_ok s w iter hidle hmk hfl]
  by_cases hd : s.cfg.dataDir = ""
  · simp only [hd, ite_true]
    obtain ⟨h1, h2, h3⟩ :=
      startCore_shared s w iter svcs heq hne hws hctor hp2p hstart hipc hhb
    exact ⟨h1, h2, h3, fun r => dispatch_of_shared _ h2 r⟩
  · simp only [hd, ite_false]
    obtain ⟨h1, h2, h3⟩ :=
      startCore_shared { s with instanceDirLock := true } w iter svcs heq hne hws
        hctor hp2p hstart hipc hhb
    exact ⟨h1, h2, h3, fun r => dispatch_of_shared _ h2 r⟩

/-- A configuration pointing HTTP and WS at the same host and port. -/
def cfgShared : Config :=
  { cfg0 with httpHost := "h", httpPort := 1, wsHost := "h", wsPort := 1 }

/-- A fresh node configured with the shared endpoint. -/
def sharedNode : NodeState := Node.new cfgShared [] ""

/-- Witness for C5 at the concrete shared-endpoint node. -/
theorem shared_endpoint_single_listener_witness :
    (Node.start sharedNode wOK id).2.2 = none ∧
    ((Node.start sharedNode wOK id).1.http.map HTTPConf.shared) = some true ∧
    (Node.start sharedNode wOK id).1.ws = none ∧
    (∀ r, Node.dispatchHTTP ((Node.start sharedNode wOK id).1) r =
      some (if eqCI r.hUpgrade "websocket" && eqCI r.hConnection "upgrade"
            then Dispatcher.wsDispatch else Dispatcher.httpDispatch)) :=
  shared_endpoint_single_listener sharedNode wOK id [] rfl rfl rfl (by decide)
    rfl rfl rfl rfl (by simp) (Or.inl rfl) rfl

/-! ### C1 -/

/-- Lookups against a node without a transport handle fail with
`ErrNodeStopped`. -/
theorem serviceLookup_stopped (s : NodeState) (hsrv : s.server = none) (k : String) :
    Node.serviceLookup s k = some GoError.nodeStopped := by
  unfold Node.serviceLookup
  rw [hsrv]

/-- The start loop never emits a lock-release event. -/
theorem startLoop_no_lock_event (l : List (String × Service)) (started : List String) :
    Ev.lockReleased ∉ (startLoop l started).1 := by
  induction l generalizing started with
  | nil => simp [startLoop]
  | cons hd tl ih =>
    obtain ⟨k, sv⟩ := hd
    unfold startLoop
    cases hse : sv.startErr
    · simpa using ih (started ++ [k])
    · simp

/-- A construction-loop error is a constructor's own error or a
duplicate-kind error; never a lifecycle error. -/
theorem constructServices_error_shape (funcs : List ServiceConstructor) :
    ∀ acc e, constructServices funcs acc = Except.error e →
      (∃ m, e = GoError.custom m) ∨ ∃ k, e = GoError.duplicateService k := by
  induction funcs with
  | nil =>
    intro acc e h
    simp [constructServices] at h
  | cons c rest ih =>
    intro acc e h
    unfold constructServices at h
    cases hc : c acc with
    | error m =>
      rw [hc] at h
      simp at h
      exact Or.inl ⟨m, h.symm⟩
    | ok sv =>
      rw [hc] at h
      by_cases hdup : acc.any (fun p => p.1 == sv.kind)
      · simp [hdup] at h
        exact Or.inr ⟨sv.kind, h.symm⟩
      · simp [hdup] at h
        exact ih _ _ h

/-- `stopInProc` emits no lock-release event. -/
theorem stopInProcM_no_lock_event (s : NodeState) :
    Ev.lockReleased ∉ (stopInProcM s).2 := by
  unfold stopInProcM
  by_cases h : s.inproc.isSome <;> simp [h]

/-- `stopIPC` emits no lock-release event. -/
theorem stopIPCm_no_lock_event (s : NodeState) :
    Ev.lockReleased ∉ (stopIPCm s).2 := by
  unfold stopIPCm
  by_cases h : s.ipc.isSome <;> simp [h]

/-- `stopHTTP` emits no lock-release event. -/
theorem stopHTTPm_no_lock_event (s : NodeState) :
    Ev.lockReleased ∉ (stopHTTPm s).2 := by
  unfold stopHTTPm
  by_cases h : s.http.isSome <;> simp [h]

/-- The three possible outcomes of `startIPC`. -/
theorem startIPCm_cases (s : NodeState) (w : World) (apis : List API) :
    (s.ipcEndpoint = "" ∧ startIPCm s w apis = (s, [], none)) ∨
    (∃ e, startIPCm s w apis = (s, [], some (GoError.custom e))) ∨
    (startIPCm s w apis
      = ({ s with ipc := some apis }, [Ev.epStart Transport.ipc], none)) := by
  unfold startIPCm
  by_cases h1 : s.ipcEndpoint = ""
  · exact Or.inl ⟨h1, by simp [h1]⟩
  · cases h2 : w.ipcBindErr with
    | none => exact Or.inr (Or.inr (by simp [h1, h2]))
    | some e => exact Or.inr (Or.inl ⟨e, by simp [h1, h2]⟩)

/-- The three possible outcomes of `startHTTP`. -/
theorem startHTTPm_cases (s : NodeState) (w : World) (endpoint : String)
    (apis : List API) (modules cors vhosts wsO : List String) :
    (endpoint = "" ∧ startHTTPm s w endpoint apis modules cors vhosts wsO
        = (s, [], none)) ∨
    (∃ e, startHTTPm s w endpoint apis modules cors vhosts wsO
        = (s, [], some (GoError.custom e))) ∨
    (startHTTPm s w endpoint apis modules cors vhosts wsO =
      ({ s with
          httpEndpoint := endpoint,
          http := some { endpoint := endpoint, corsAllowed := cors, vhosts := vhosts,
                         registered := RegisterApisFromWhitelist apis modules false,
                         shared := s.httpEndpoint == s.wsEndpoint, wsOrigins := wsO } },
       [Ev.epStart Transport.http], none)) := by
  unfold startHTTPm
  by_cases h1 : endpoint = ""
  · exact Or.inl ⟨h1, by simp [h1]⟩
  · cases h2 : w.httpBindErr with
    | none => exact Or.inr (Or.inr (by simp [h1, h2]))
    | some e => exact Or.inr (Or.inl ⟨e, by simp [h1, h2]⟩)

/-- The three possible outcomes of `startWS`. -/
theorem startWSm_cases (s : NodeState) (w : World) (endpoint : String)
    (apis : List API) (modules origins : List String) (exposeAll : Bool) :
    (endpoint = "" ∧ startWSm s w endpoint apis modules origins exposeAll
        = (s, [], none)) ∨
    (∃ e, startWSm s w endpoint apis modules origins exposeAll
        = (s, [], some (GoError.custom e))) ∨
    (startWSm s w endpoint apis modules origins exposeAll =
      ({ s with
          wsEndpoint := endpoint,
          ws := some { endpoint := endpoint, origins := origins,
                       registered := RegisterApisFromWhitelist apis modules exposeAll } },
       [Ev.epStart Transport.ws], none)) := by
  unfold startWSm
  by_cases h1 : endpoint = ""
  · exact Or.inl ⟨h1, by simp [h1]⟩
  · cases h2 : w.wsBindErr with
    | none => exact Or.inr (Or.inr (by simp [h1, h2]))
    | some e => exact Or.inr (Or.inl ⟨e, by simp [h1, h2]⟩)

/-- The WS step emits no lock-release event, and its only errors wrap
collaborator errors. -/
theorem rpcWSStage_events_and_error (s3 : NodeState) (w : World) (apis : List API) :
    Ev.lockReleased ∉ (rpcWSStage s3 w apis).2.1 ∧
    ((rpcWSStage s3 w apis).2.2 = none ∨
      ∃ m, (rpcWSStage s3 w apis).2.2 = some (GoError.custom m)) := by
  unfold rpcWSStage
  by_cases hc : s3.httpEndpoint = s3.wsEndpoint
  · simp [hc]
  · simp only [hc, if_false, ite_false]
    rcases startWSm_cases s3 w s3.wsEndpoint apis s3.cfg.wsModules s3.cfg.wsOrigins
        s3.cfg.wsExposeAll with ⟨he, hval⟩ | ⟨e, hval⟩ | hval
    all_goals rw [hval]
    · simp
    · refine ⟨?_, Or.inr ⟨e, rfl⟩⟩
      simp [stopHTTPm_no_lock_event, stopIPCm_no_lock_event, stopInProcM_no_lock_event]
    · simp

/-- The HTTP step emits no lock-release event, and its only errors wrap
collaborator errors. -/
theorem rpcHTTPStage_events_and_error (s2 : NodeState) (w : World) (apis : List API) :
    Ev.lockReleased ∉ (rpcHTTPStage s2 w apis).2.1 ∧
    ((rpcHTTPStage s2 w apis).2.2 = none ∨
      ∃ m, (rpcHTTPStage s2 w apis).2.2 = some (GoError.custom m)) := by
  unfold rpcHTTPStage
  rcases startHTTPm_cases s2 w s2.httpEndpoint apis s2.cfg.httpModules s2.cfg.httpCors
      s2.cfg.httpVirtualHosts s2.cfg.wsOrigins with ⟨he, hval⟩ | ⟨e, hval⟩ | hval
  all_goals rw [hval]
  · obtain ⟨h1, h2⟩ := rpcWSStage_events_and_error s2 w apis
    exact ⟨by simpa using h1, h2⟩
  · refine ⟨?_, Or.inr ⟨e, rfl⟩⟩
    simp [stopIPCm_no_lock_event, stopInProcM_no_lock_event]
  · obtain ⟨h1, h2⟩ := rpcWSStage_events_and_error
      ({ s2 with
          httpEndpoint := s2.httpEndpoint,
          http := some { endpoint := s2.httpEndpoint, corsAllowed := s2.cfg.httpCors,
                         vhosts := s2.cfg.httpVirtualHosts,
                         registered := RegisterApisFromWhitelist apis s2.cfg.httpModules false,
                         shared := s2.httpEndpoint == s2.wsEndpoint,
                         wsOrigins := s2.cfg.wsOrigins } }) w apis
    refine ⟨?_, h2⟩
    simpa using h1

/-- The IPC step emits no lock-release event, and its only errors wrap
collaborator errors. -/
theorem rpcIPCStage_events_and_error (s1 : NodeState) (w : World) (apis : List API) :
    Ev.lockReleased ∉ (rpcIPCStage s1 w apis).2.1 ∧
    ((rpcIPCStage s1 w apis).2.2 = none ∨
      ∃ m, (rpcIPCStage s1 w apis).2.2 = some (GoError.custom m)) := by
  unfold rpcIPCStage
  rcases startIPCm_cases s1 w apis with ⟨he, hval⟩ | ⟨e, hval⟩ | hval
  all_goals rw [hval]
  · obtain ⟨h1, h2⟩ := rpcHTTPStage_events_and_error s1 w apis
    exact ⟨by simpa using h1, h2⟩
  · refine ⟨?_, Or.inr ⟨e, rfl⟩⟩
    simp [stopInProcM_no_lock_event]
  · obtain ⟨h1, h2⟩ := rpcHTTPStage_events_and_error { s1 with ipc := some apis } w apis
    refine ⟨?_, h2⟩
    simpa using h1

/-- The RPC phase never emits a lock-release event, and every error it
returns is a wrapped collaborator error. -/
theorem startRPCm_events_and_error (s : NodeState) (w : World)
    (iter : List (String × Service) → List (String × Service))
    (svcs : List (String × Service)) :
    Ev.lockReleased ∉ (startRPCm s w iter svcs).2.1 ∧
    ((startRPCm s w iter svcs).2.2 = none ∨
      ∃ m, (startRPCm s w iter svcs).2.2 = some (GoError.custom m)) := by
  unfold startRPCm
  obtain ⟨h1, h2⟩ := rpcIPCStage_events_and_error
    { s with inproc := some ((iter svcs).foldl (fun a p => a ++ p.2.apis) builtinAPIs) }
    w ((iter svcs).foldl (fun a p => a ++ p.2.apis) builtinAPIs)
  exact ⟨by simpa using h1, h2⟩

/-- When the WS step fails, its rollback leaves no in-process, IPC or
HTTP endpoint, and the remaining node fields are untouched. -/
theorem rpcWSStage_fail_unwind (s3 : NodeState) (w : World) (apis : List API) :
    (rpcWSStage s3 w apis).2.2 = none ∨
    ((rpcWSStage s3 w apis).1.inproc = none
      ∧ (rpcWSStage s3 w apis).1.ipc = none
      ∧ (rpcWSStage s3 w apis).1.http = none
      ∧ (rpcWSStage s3 w apis).1.ws = s3.ws
      ∧ (rpcWSStage s3 w apis).1.rpcAPIs = s3.rpcAPIs
      ∧ (rpcWSStage s3 w apis).1.services = s3.services
      ∧ (rpcWSStage s3 w apis).1.server = s3.server
      ∧ (rpcWSStage s3 w apis).1.instanceDirLock = s3.instanceDirLock) := by
  unfold rpcWSStage
  by_cases hc : s3.httpEndpoint = s3.wsEndpoint
  · simp [hc]
  · simp only [hc, if_false, ite_false]
    rcases startWSm_cases s3 w s3.wsEndpoint apis s3.cfg.wsModules s3.cfg.wsOrigins
        s3.cfg.wsExposeAll with ⟨he, hval⟩ | ⟨e, hval⟩ | hval
    all_goals rw [hval]
    · simp
    · right
      unfold stopHTTPm stopIPCm stopInProcM
      by_cases hH : s3.http.isSome
      all_goals by_cases hI : s3.ipc.isSome
      all_goals by_cases hP : s3.inproc.isSome
      all_goals simp_all
    · simp

/-- When the HTTP step fails on a node without HTTP or WS endpoints, its
rollback leaves no endpoint handle, and the remaining fields are
untouched. -/
theorem rpcHTTPStage_fail_unwind (s2 : NodeState) (w : World) (apis : List API)
    (hh : s2.http = none) (hw : s2.ws = none) :
    (rpcHTTPStage s2 w apis).2.2 = none ∨
    ((rpcHTTPStage s2 w apis).1.inproc = none
      ∧ (rpcHTTPStage s2 w apis).1.ipc = none
      ∧ (rpcHTTPStage s2 w apis).1.http = none
      ∧ (rpcHTTPStage s2 w apis).1.ws = none
      ∧ (rpcHTTPStage s2 w apis).1.rpcAPIs = s2.rpcAPIs
      ∧ (rpcHTTPStage s2 w apis).1.services = s2.services
      ∧ (rpcHTTPStage s2 w apis).1.server = s2.server
      ∧ (rpcHTTPStage s2 w apis).1.instanceDirLock = s2.instanceDirLock) := by
  unfold rpcHTTPStage
  rcases startHTTPm_cases s2 w s2.httpEndpoint apis s2.cfg.httpModules s2.cfg.httpCors
      s2.cfg.httpVirtualHosts s2.cfg.wsOrigins with ⟨he, hval⟩ | ⟨e, hval⟩ | hval
  all_goals rw [hval]
  · rcases rpcWSStage_fail_unwind s2 w apis with hok | hf
    · exact Or.inl hok
    · exact Or.inr ⟨hf.1, hf.2.1, hf.2.2.1, hw ▸ hf.2.2.2.1, hf.2.2.2.2.1,
        hf.2.2.2.2.2.1, hf.2.2.2.2.2.2.1, hf.2.2.2.2.2.2.2⟩
  · right
    unfold stopIPCm stopInProcM
    by_cases hI : s2.ipc.isSome
    all_goals by_cases hP : s2.inproc.isSome
    all_goals simp_all
  · rcases rpcWSStage_fail_unwind
        ({ s2 with
            httpEndpoint := s2.httpEndpoint,
            http := some { endpoint := s2.httpEndpoint, corsAllowed := s2.cfg.httpCors,
                           vhosts := s2.cfg.httpVirtualHosts,
                           registered := RegisterApisFromWhitelist apis s2.cfg.httpModules false,
                           shared := s2.httpEndpoint == s2.wsEndpoint,
                           wsOrigins := s2.cfg.wsOrigins } }) w apis with hok | hf
    · exact Or.inl hok
    · exact Or.inr ⟨hf.1, hf.2.1, hf.2.2.1, hw ▸ hf.2.2.2.1, hf.2.2.2.2.1,
        hf.2.2.2.2.2.1, hf.2.2.2.2.2.2.1, hf.2.2.2.2.2.2.2⟩

/-- When the IPC step fails on a node with no endpoint handles, its
rollback leaves none behind, and the remaining fields are untouched. -/
theorem rpcIPCStage_fail_unwind (s1 : NodeState) (w : World) (apis : List API)
    (hip : s1.ipc = none) (hh : s1.http = none) (hw : s1.ws = none) :
    (rpcIPCStage s1 w apis).2.2 = none ∨
    ((rpcIPCStage s1 w apis).1.inproc = none
      ∧ (rpcIPCStage s1 w apis).1.ipc = none
      ∧ (rpcIPCStage s1 w apis).1.http = none
      ∧ (rpcIPCStage s1 w apis).1.ws = none
      ∧ (rpcIPCStage s1 w apis).1.rpcAPIs = s1.rpcAPIs
      ∧ (rpcIPCStage s1 w apis).1.services = s1.services
      ∧ (rpcIPCStage s1 w apis).1.server = s1.server
      ∧ (rpcIPCStage s1 w apis).1.instanceDirLock = s1.instanceDirLock) := by
  unfold rpcIPCStage
  rcases startIPCm_cases s1 w apis with ⟨he, hval⟩ | ⟨e, hval⟩ | hval
  all_goals rw [hval]
  · rcases rpcHTTPStage_fail_unwind s1 w apis hh hw with hok | hf
    · exact Or.inl hok
    · exact Or.inr hf
  · right
    unfold stopInProcM
    by_cases hP : s1.inproc.isSome
    all_goals simp_all
  · rcases rpcHTTPStage_fail_unwind { s1 with ipc := some apis } w apis hh hw
        with hok | hf
    · exact Or.inl hok
    · exact Or.inr hf

/-- When the RPC phase fails on a node that had no endpoint, its
rollback leaves no endpoint handle and no API list behind, and the rest
of the node state — including the instance lock — is untouched. -/
theorem startRPCm_fail_unwind (s : NodeState) (w : World)
    (iter : List (String × Service) → List (String × Service))
    (svcs : List (String × Service))
    (hip : s.ipc = none) (hh : s.http = none) (hw : s.ws = none) :
    (startRPCm s w iter svcs).2.2 = none ∨
    ((startRPCm s w iter svcs).1.inproc = none
      ∧ (startRPCm s w iter svcs).1.ipc = none
      ∧ (startRPCm s w iter svcs).1.http = none
      ∧ (startRPCm s w iter svcs).1.ws = none
      ∧ (startRPCm s w iter svcs).1.rpcAPIs = s.rpcAPIs
      ∧ (startRPCm s w iter svcs).1.services = s.services
      ∧ (startRPCm s w iter svcs).1.server = s.server
      ∧ (startRPCm s w iter svcs).1.instanceDirLock = s.instanceDirLock) := by
  unfold startRPCm
  rcases rpcIPCStage_fail_unwind
      { s with inproc := some ((iter svcs).foldl (fun a p => a ++ p.2.apis) builtinAPIs) }
      w ((iter svcs).foldl (fun a p => a ++ p.2.apis) builtinAPIs) hip hh hw
      with hok | hf
  · exact Or.inl hok
  · exact Or.inr hf

/-- Every error of the post-lock body is a collaborator error or a
duplicate-kind error, never `ErrNodeRunning`. -/
theorem startCore_error_shape (s1 : NodeState) (w : World)
    (iter : List (String × Service) → List (String × Service)) :
    (startCore s1 w iter).2.2 = none ∨
    (∃ m, (startCore s1 w iter).2.2 = some (GoError.custom m)) ∨
    (∃ k, (startCore s1 w iter).2.2 = some (GoError.duplicateService k)) := by
  cases hc : constructServices s1.serviceFuncs [] with
  | error e =>
    have hval : (startCore s1 w iter).2.2 = some e := by
      unfold startCore
      simp only [hc]
    rcases constructServices_error_shape s1.serviceFuncs [] e hc with ⟨m, rfl⟩ | ⟨k, rfl⟩
    · exact Or.inr (Or.inl ⟨m, hval⟩)
    · exact Or.inr (Or.inr ⟨k, hval⟩)
  | ok svcs =>
    cases hp : w.p2pStartErr with
    | some e =>
      have hval : (startCore s1 w iter).2.2 = some (GoError.custom e) := by
        unfold startCore convertFileLockError
        simp only [hc, hp]
      exact Or.inr (Or.inl ⟨e, hval⟩)
    | none =>
      rcases hsl : startLoop (iter svcs) [] with ⟨ev3, oe⟩
      cases oe with
      | some e =>
        have hval : (startCore s1 w iter).2.2 = some (GoError.custom e) := by
          unfold startCore
          simp only [hc, hp, hsl]
        exact Or.inr (Or.inl ⟨e, hval⟩)
      | none =>
        rcases hrpc : startRPCm s1 w iter svcs with ⟨s2, ev4, oe2⟩
        cases oe2 with
        | none =>
          have hval : (startCore s1 w iter).2.2 = none := by
            unfold startCore
            simp only [hc, hp, hsl, hrpc]
          exact Or.inl hval
        | some e =>
          have hval : (startCore s1 w iter).2.2 = some e := by
            unfold startCore
            simp only [hc, hp, hsl, hrpc]
          rcases (startRPCm_events_and_error s1 w iter svcs).2 with hnone | ⟨m, hm⟩
          · rw [hrpc] at hnone
            simp at hnone
          · rw [hrpc] at hm
            simp only at hm
            have hem : e = GoError.custom m := by injection hm
            exact Or.inr (Or.inl ⟨m, by rw [hval, hem]⟩)

/-- The three possible outcomes of `openDataDir`: skipped (no datadir),
failed with a wrapped collaborator error, or lock acquired. -/
theorem openDataDirM_cases (s : NodeState) (w : World) :
    (s.cfg.dataDir = "" ∧ openDataDirM s w = (s, [], none)) ∨
    (∃ m, openDataDirM s w = (s, [], some (GoError.custom m))
      ∧ (w.mkdirErr.isSome ∨ w.flockErr.isSome)) ∨
    (s.cfg.dataDir ≠ "" ∧ w.mkdirErr = none ∧ w.flockErr = none ∧
      openDataDirM s w
        = ({ s with instanceDirLock := true }, [Ev.lockAcquired], none)) := by
  unfold openDataDirM convertFileLockError
  by_cases hd : s.cfg.dataDir = ""
  · exact Or.inl ⟨hd, by simp [hd]⟩
  · cases hmk : w.mkdirErr with
    | some e => exact Or.inr (Or.inl ⟨e, by simp [hd, hmk], Or.inl (by simp [hmk])⟩)
    | none =>
      cases hfl : w.flockErr with
      | some e => exact Or.inr (Or.inl ⟨e, by simp [hd, hmk, hfl], Or.inr (by simp [hfl])⟩)
      | none => exact Or.inr (Or.inr ⟨hd, rfl, rfl, by simp [hd]⟩)

/-- `Node.Start` on an idle node when the lock step fails. -/
theorem node_start_eq_of_lock_fail (s : NodeState) (w : World)
    (iter : List (String × Service) → List (String × Service))
    (hidle : s.server = none) (s1 : NodeState) (ev1 : List Ev) (e : GoError)
    (hod : openDataDirM s w = (s1, ev1, some e)) :
    Node.start s w iter = (s1, ev1, some e) := by
  unfold Node.start
  rw [hod]
  simp [hidle]

/-- `Node.Start` on an idle node when the lock step succeeds. -/
theorem node_start_eq_of_lock_ok (s : NodeState) (w : World)
    (iter : List (String × Service) → List (String × Service))
    (hidle : s.server = none) (s1 : NodeState) (ev1 : List Ev)
    (hod : openDataDirM s w = (s1, ev1, none)) :
    Node.start s w iter =
      ((startCore s1 w iter).1, ev1 ++ (startCore s1 w iter).2.1,
       (startCore s1 w iter).2.2) := by
  unfold Node.start
  rw [hod]
  simp [hidle]

/-- A `Start` from a node without a transport handle is never rejected
with `ErrNodeRunning`, whatever else happens. -/
theorem start_from_idle_not_rejected (s : NodeState) (w : World)
    (iter : List (String × Service) → List (String × Service))
    (hidle : s.server = none) :
    (Node.start s w iter).2.2 ≠ some GoError.nodeRunning := by
  rcases openDataDirM_cases s w with ⟨hd, hod⟩ | ⟨m, hod, herr⟩ | ⟨hd, hmk, hfl, hod⟩
  · rw [node_start_eq_of_lock_ok s w iter hidle s [] hod]
    rcases startCore_error_shape s w iter with h | ⟨m, h⟩ | ⟨k, h⟩ <;> simp [h]
  · rw [node_start_eq_of_lock_fail s w iter hidle s [] (GoError.custom m) hod]
    simp
  · rw [node_start_eq_of_lock_ok s w iter hidle
      { s with instanceDirLock := true } [Ev.lockAcquired] hod]
    rcases startCore_error_shape { s with instanceDirLock := true } w iter
        with h | ⟨m, h⟩ | ⟨k, h⟩ <;> simp [h]

/-- The post-lock body, failing on a fresh idle state, retains no service
map, transport handle, endpoint handle or API list, leaves the instance
lock exactly as it found it, and never emits a lock-release event. -/
theorem startCore_fail_unwind (s1 : NodeState) (w : World)
    (iter : List (String × Service) → List (String × Service))
    (hsvc : s1.services = none) (hapi : s1.rpcAPIs = none)
    (hin : s1.inproc = none) (hip : s1.ipc = none) (hh : s1.http = none)
    (hw : s1.ws = none) (hsrv : s1.server = none)
    (hfail : (startCore s1 w iter).2.2 ≠ none) :
    (startCore s1 w iter).1.services = none ∧
    (startCore s1 w iter).1.server = none ∧
    (startCore s1 w iter).1.rpcAPIs = none ∧
    (startCore s1 w iter).1.inproc = none ∧
    (startCore s1 w iter).1.ipc = none ∧
    (startCore s1 w iter).1.http = none ∧
    (startCore s1 w iter).1.ws = none ∧
    (startCore s1 w iter).1.instanceDirLock = s1.instanceDirLock ∧
    Ev.lockReleased ∉ (startCore s1 w iter).2.1 := by
  cases hc : constructServices s1.serviceFuncs [] with
  | error e =>
    have hval : startCore s1 w iter = (s1, [], some e) := by
      unfold startCore
      simp only [hc]
    rw [hval]
    simp [hsvc, hapi, hin, hip, hh, hw, hsrv]
  | ok svcs =>
    cases hp : w.p2pStartErr with
    | some e =>
      have hval : startCore s1 w iter = (s1, [], some (convertFileLockError e)) := by
        unfold startCore
        simp only [hc, hp]
      rw [hval]
      simp [hsvc, hapi, hin, hip, hh, hw, hsrv]
    | none =>
      rcases hsl : startLoop (iter svcs) [] with ⟨ev3, oe⟩
      have hev3 : Ev.lockReleased ∉ ev3 := by
        have hnl := startLoop_no_lock_event (iter svcs) []
        rw [hsl] at hnl
        exact hnl
      cases oe with
      | some e =>
        have hval : startCore s1 w iter
            = (s1, [Ev.p2pStart] ++ ev3, some (GoError.custom e)) := by
          unfold startCore
          simp only [hc, hp, hsl]
        rw [hval]
        simp [hsvc, hapi, hin, hip, hh, hw, hsrv, hev3]
      | none =>
        rcases hrpc : startRPCm s1 w iter svcs with ⟨s2, ev4, oe2⟩
        cases oe2 with
        | none =>
          have hval : (startCore s1 w iter).2.2 = none := by
            unfold startCore
            simp only [hc, hp, hsl, hrpc]
          exact absurd hval hfail
        | some e =>
          have hval : startCore s1 w iter =
              (s2, [Ev.p2pStart] ++ ev3 ++ ev4
                ++ (iter svcs).map (fun p => Ev.svcStop p.1) ++ [Ev.p2pStop],
               some e) := by
            unfold startCore
            simp only [hc, hp, hsl, hrpc]
          have hnl := (startRPCm_events_and_error s1 w iter svcs).1
          rw [hrpc] at hnl
          simp only at hnl
          rcases startRPCm_fail_unwind s1 w iter svcs hip hh hw with hnone | hfields
          · rw [hrpc] at hnone
            simp at hnone
          · rw [hrpc] at hfields
            simp only at hfields
            obtain ⟨f1, f2, f3, f4, f5, f6, f7, f8⟩ := hfields
            rw [hval]
            refine ⟨by rw [f6, hsvc], by rw [f7, hsrv], by rw [f5, hapi],
              f1, f2, f3, f4, f8, ?_⟩
            simp [hnl, hev3]

/-- A fresh node with one always-failing constructor over a datadir. -/
def lockFailNode : NodeState :=
  Node.new { cfg0 with dataDir := "d" } [failingCtor] ""

/-- C1 counterexample: a Start that acquires the instance-directory lock
and then fails (here: a constructor error) returns without releasing the
lock — the failure paths of src/node.go lines 150-183 never touch
`n.instanceDirLock`, which only `Node.Stop` releases, and Stop refuses to
run on the now-idle node. So the claim that the instance-directory lock
acquired in step 1 is released before Start returns is false. -/
theorem start_failure_lock_not_released_cex :
    (Node.start lockFailNode wOK id).2.2 = some (GoError.custom "boom") ∧
    (Node.start lockFailNode wOK id).1.instanceDirLock = true ∧
    Ev.lockReleased ∉ (Node.start lockFailNode wOK id).2.1 ∧
    (Node.stop (Node.start lockFailNode wOK id).1 wOK id).2.2
        = some GoError.nodeStopped := by
  refine ⟨rfl, rfl, by decide, rfl⟩

/-- C1 (amended): every failing `Start` on a clean idle node retains no
service map, transport handle, endpoint handle or API list; the node
remains externally Idle (`Node.Service` fails with `ErrNodeStopped`, a
subsequent `Start` is never rejected with `ErrNodeRunning`); but the
instance-directory lock acquired in step 1 is NOT released: no release
ever happens during Start, and the lock handle remains held exactly when
the lock step succeeded in this call. -/
theorem start_failure_unwinds_all_but_lock (s : NodeState) (w : World)
    (iter : List (String × Service) → List (String × Service))
    (hidle : s.server = none) (hsvc : s.services = none) (hapi : s.rpcAPIs = none)
    (hin : s.inproc = none) (hip : s.ipc = none) (hh : s.http = none)
    (hw : s.ws = none) (hlock : s.instanceDirLock = false)
    (hfail : (Node.start s w iter).2.2 ≠ none) :
    (Node.start s w iter).1.services = none ∧
    (Node.start s w iter).1.server = none ∧
    (Node.start s w iter).1.rpcAPIs = none ∧
    (Node.start s w iter).1.inproc = none ∧
    (Node.start s w iter).1.ipc = none ∧
    (Node.start s w iter).1.http = none ∧
    (Node.start s w iter).1.ws = none ∧
    (∀ k, Node.serviceLookup ((Node.start s w iter).1) k
        = some GoError.nodeStopped) ∧
    (∀ w' iter', (Node.start ((Node.start s w iter).1) w' iter').2.2
        ≠ some GoError.nodeRunning) ∧
    Ev.lockReleased ∉ (Node.start s w iter).2.1 ∧
    (Node.start s w iter).1.instanceDirLock
      = (s.cfg.dataDir != "" && w.mkdirErr.isNone && w.flockErr.isNone) := by
  rcases openDataDirM_cases s w with ⟨hd, hod⟩ | ⟨m, hod, herr⟩ | ⟨hd, hmk, hfl, hod⟩
  · rw [node_start_eq_of_lock_ok s w iter hidle s [] hod] at hfail ⊢
    obtain ⟨g1, g2, g3, g4, g5, g6, g7, g8, g9⟩ :=
      startCore_fail_unwind s w iter hsvc hapi hin hip hh hw hidle hfail
    exact ⟨g1, g2, g3, g4, g5, g6, g7,
      fun k => serviceLookup_stopped _ g2 k,
      fun w' iter' => start_from_idle_not_rejected _ w' iter' g2,
      by simpa using g9, by rw [g8, hlock]; simp [hd]⟩
  · rw [node_start_eq_of_lock_fail s w iter hidle s [] (GoError.custom m) hod] at hfail ⊢
    refine ⟨hsvc, hidle, hapi, hin, hip, hh, hw,
      fun k => serviceLookup_stopped _ hidle k,
      fun w' iter' => start_from_idle_not_rejected _ w' iter' hidle,
      by simp, ?_⟩
    rw [hlock]
    rcases herr with h | h
    · rcases Option.isSome_iff_exists.mp h with ⟨e, he⟩
      simp [he]
    · rcases Option.isSome_iff_exists.mp h with ⟨e, he⟩
      simp [he]
  · rw [node_start_eq_of_lock_ok s w iter hidle
      { s with instanceDirLock := true } [Ev.lockAcquired] hod] at hfail ⊢
    obtain ⟨g1, g2, g3, g4, g5, g6, g7, g8, g9⟩ :=
      startCore_fail_unwind { s with instanceDirLock := true } w iter
        hsvc hapi hin hip hh hw hidle hfail
    exact ⟨g1, g2, g3, g4, g5, g6, g7,
      fun k => serviceLookup_stopped _ g2 k,
      fun w' iter' => start_from_idle_not_rejected _ w' iter' g2,
      by simpa using g9, by rw [g8]; simp [hd, hmk, hfl]⟩

/-- Witness for C1's amended theorem at the concrete failing node. -/
theorem start_failure_unwinds_all_but_lock_witness :
    (Node.start lockFailNode wOK id).1.services = none ∧
    (Node.start lockFailNode wOK id).1.server = none ∧
    (Node.start lockFailNode wOK id).1.rpcAPIs = none ∧
    (Node.start lockFailNode wOK id).1.inproc = none ∧
    (Node.start lockFailNode wOK id).1.ipc = none ∧
    (Node.start lockFailNode wOK id).1.http = none ∧
    (Node.start lockFailNode wOK id).1.ws = none ∧
    Node.serviceLookup ((Node.start lockFailNode wOK id).1) "A"
        = some GoError.nodeStopped ∧
    (Node.start ((Node.start lockFailNode wOK id).1) wOK id).2.2
        ≠ some GoError.nodeRunning ∧
    Ev.lockReleased ∉ (Node.start lockFailNode wOK id).2.1 ∧
    (Node.start lockFailNode wOK id).1.instanceDirLock
      = (lockFailNode.cfg.dataDir != "" && wOK.mkdirErr.isNone
          && wOK.flockErr.isNone) := by
  obtain ⟨h1, h2, h3, h4, h5, h6, h7, h8, h9, h10, h11⟩ :=
    start_failure_unwinds_all_but_lock lockFailNode wOK id
      rfl rfl rfl rfl rfl rfl rfl rfl (by decide)
  exact ⟨h1, h2, h3, h4, h5, h6, h7, h8 "A", h9 wOK id, h10, h11⟩

end NodeSpec
